import Mathlib

/-!
# Authentication and authorization core of the basketball API server

A shallow embedding of

* `internal/models/user.go` (roles, status, `User`),
* `internal/config/config.go` (`parseDuration`, the JWT part of `Config`),
* `internal/utils/response.go` (response envelopes),
* `internal/utils/jwt.go` (`GenerateToken`, `GenerateRefreshToken`,
  `ValidateToken`, `ExtractTokenFromHeader`),
* `internal/middleware/auth.go` and `internal/middleware/permission.go`
  (the gin stages),
* `internal/repositories/user_repository.go`, `internal/services/auth_service.go`
  and `internal/handlers/auth_handler.go` (login and token refresh),

followed by theorems about them.

Conventions.  A Go `string` whose bytes the code inspects (header values,
token strings) is the list of its bytes.  Strings that are only passed around
(messages, e-mail addresses, role names) are Lean strings.  `time.Time` is the
number of nanoseconds since the Unix epoch, `time.Duration` a number of
nanoseconds.  A `*gin.Context` is a record that the stages transform.
-/

namespace EchoGolang

/-! ## Basic types -/

/-- Byte sequence of a Go `string`. -/
abbrev GoString := List Nat

/-- Value of `uuid.UUID`: the 128-bit number spelled by its 16 bytes, big endian. -/
abbrev UUID := Nat

/-- Instant of `time.Time`, in nanoseconds since the Unix epoch. -/
abbrev Time := Int

/-- Span of `time.Duration`, in nanoseconds. -/
abbrev Duration := Int

/-- Go constant `time.Second`. -/
def Second : Duration := 1000000000

/-- Go constant `time.Minute`. -/
def Minute : Duration := 60 * Second

/-- Go constant `time.Hour`. -/
def Hour : Duration := 60 * Minute

/-- One lower-case hexadecimal digit. -/
def hexDigit (d : Nat) : Char :=
  if d < 10 then Char.ofNat (48 + d) else Char.ofNat (87 + d)

/-- Two hexadecimal digits of byte number `i` (0 is the most significant) of a UUID. -/
def hexByte (u : UUID) (i : Nat) : List Char :=
  let b := u / 256 ^ (15 - i) % 256
  [hexDigit (b / 16), hexDigit (b % 16)]

/-- Method `uuid.UUID.String`: the form xxxxxxxx-xxxx-xxxx-xxxx-xxxxxxxxxxxx. -/
def UUID.String (u : UUID) : String :=
  String.mk
    (hexByte u 0 ++ hexByte u 1 ++ hexByte u 2 ++ hexByte u 3 ++ ['-'] ++
     hexByte u 4 ++ hexByte u 5 ++ ['-'] ++
     hexByte u 6 ++ hexByte u 7 ++ ['-'] ++
     hexByte u 8 ++ hexByte u 9 ++ ['-'] ++
     hexByte u 10 ++ hexByte u 11 ++ hexByte u 12 ++ hexByte u 13 ++
     hexByte u 14 ++ hexByte u 15)

/-! ## internal/models/user.go -/

/-- Go type `UserRole`, a string. -/
abbrev UserRole := String

def RoleSuperAdmin : UserRole := "super_admin"
def RoleOrgAdmin : UserRole := "org_admin"
def RoleTeamMember : UserRole := "team_member"
def RolePublic : UserRole := "public"

/-- Go type `UserStatus`, a string. -/
abbrev UserStatus := String

def UserStatusActive : UserStatus := "active"
def UserStatusInactive : UserStatus := "inactive"

/-- Struct `models.User` (the preloaded `Organization` relation is left out). -/
structure User where
  ID : UUID
  Email : String
  Password : String
  Role : UserRole
  OrganizationID : Option UUID
  FullName : String
  Phone : String
  ProfileImageURL : String
  Status : UserStatus
  LastLoginAt : Option Time
  CreatedAt : Time
  UpdatedAt : Time
  DeletedAt : Option Time
  deriving DecidableEq, Repr

/-- Method `User.IsAdmin`. -/
def User.IsAdmin (u : User) : Bool := u.Role == RoleSuperAdmin

/-- Method `User.IsOrgAdmin`. -/
def User.IsOrgAdmin (u : User) : Bool := u.Role == RoleOrgAdmin

/-- Method `User.CanManageOrganization`. -/
def User.CanManageOrganization (u : User) (orgID : UUID) : Bool :=
  if u.IsAdmin then true
  else if u.IsOrgAdmin && u.OrganizationID.isSome && u.OrganizationID == some orgID then true
  else false

/-- Method `User.IsActive`. -/
def User.IsActive (u : User) : Bool := u.Status == UserStatusActive

/-! ## The user table -/

/-- Rows of the `users` table behind `database.DB`. -/
structure DB where
  users : List User
  deriving Repr

/-- Query `database.DB.Where("id = ?", id).First(&user)`: the first row with that
id that is not soft-deleted; `none` stands for the error result. -/
def DB.First (db : DB) (id : UUID) : Option User :=
  db.users.find? (fun u => u.ID == id && u.DeletedAt.isNone)

/-! ## internal/config/config.go -/

/-- JWT part of `config.Config`. -/
structure Config where
  JWTSecret : GoString
  JWTExpiration : Duration
  JWTRefreshExpiration : Duration
  deriving DecidableEq, Repr

/-- Function `parseDuration`; the argument is the result of `time.ParseDuration`
on the configured string, `none` standing for its error. -/
def parseDuration (parsed : Option Duration) : Duration :=
  match parsed with
  | none => 15 * Minute
  | some duration => duration

/-! ## The package github.com/golang-jwt/jwt/v5, as far as jwt.go uses it

The repository calls the library; the library text is not part of it.  What
follows is the control flow of `Token.SignedString`, `Parser.ParseWithClaims`
and `Validator.Validate` of that package.  The byte-level work (base64url,
JSON, the HMAC hash) is collected in a record of functions, `JWTLib`. -/

/-- Struct `jwt.RegisteredClaims`; a `*jwt.NumericDate` is an optional instant. -/
structure RegisteredClaims where
  Issuer : String
  Subject : String
  Audience : List String
  ExpiresAt : Option Time
  NotBefore : Option Time
  IssuedAt : Option Time
  ID : String
  deriving DecidableEq, Repr

/-- Struct `utils.JWTClaims` of jwt.go. -/
structure JWTClaims where
  UserID : UUID
  Email : String
  Role : UserRole
  OrganizationID : Option UUID
  RegisteredClaims : RegisteredClaims
  deriving DecidableEq, Repr

/-- Function `jwt.NewNumericDate`: the instant truncated to `jwt.TimePrecision`,
which is one second. -/
def NewNumericDate (t : Time) : Time := t - t % Second

/-- Hash functions of the HMAC signing methods. -/
inductive Hash
  | SHA256
  | SHA384
  | SHA512
  deriving DecidableEq, Repr

/-- Registered signing methods: those of type `*jwt.SigningMethodHMAC`, and the rest. -/
inductive SigningMethod
  | HMAC (name : String) (hash : Hash)
  | other (name : String)
  deriving DecidableEq, Repr

def SigningMethodHS256 : SigningMethod := .HMAC "HS256" .SHA256
def SigningMethodHS384 : SigningMethod := .HMAC "HS384" .SHA384
def SigningMethodHS512 : SigningMethod := .HMAC "HS512" .SHA512

/-- Method `SigningMethod.Alg`. -/
def SigningMethod.Alg : SigningMethod → String
  | .HMAC name _ => name
  | .other name => name

/-- Function `jwt.GetSigningMethod`: the method registered under a header `alg`. -/
def GetSigningMethod (alg : String) : Option SigningMethod :=
  if alg = "HS256" then some SigningMethodHS256
  else if alg = "HS384" then some SigningMethodHS384
  else if alg = "HS512" then some SigningMethodHS512
  else if alg ∈ ["RS256", "RS384", "RS512", "PS256", "PS384", "PS512",
      "ES256", "ES384", "ES512", "EdDSA", "none"] then some (.other alg)
  else none

/-- What `Parser.ParseUnverified` and `Parser.DecodeSegment` read off a token
string with three dot-separated segments. -/
structure Segments where
  /-- The first two segments joined by a dot: the text that is signed. -/
  signingString : GoString
  /-- Header field `alg`, when it is a string. -/
  alg : Option String
  /-- The second segment decoded into a `JWTClaims`. -/
  claims : JWTClaims
  /-- The third segment base64url-decoded, when it decodes. -/
  signature : Option GoString
  deriving DecidableEq, Repr

/-- Byte-level primitives of the jwt package. -/
structure JWTLib where
  /-- HMAC of a message under a key (`hmac.New(hash, key)`, `Write`, `Sum`). -/
  hmac : Hash → GoString → GoString → GoString
  /-- Method `Verify` of the signing methods that are not HMAC. -/
  verifyOther : String → GoString → GoString → GoString → Bool
  /-- Method `Token.SigningString`: base64url of the header JSON (with the given `alg`),
  a dot, base64url of the claims JSON. -/
  signingString : String → JWTClaims → GoString
  /-- Signing string, a dot, base64url of the signature. -/
  join : GoString → GoString → GoString
  /-- Splitting and decoding of a token string; `none` when it is malformed. -/
  split : GoString → Option Segments

/-- JSON carries a numeric date in whole seconds: the dates that survive
encoding and decoding unchanged. -/
def WholeSeconds (c : JWTClaims) : Prop :=
  (∀ t, c.RegisteredClaims.ExpiresAt = some t → t % Second = 0) ∧
  (∀ t, c.RegisteredClaims.NotBefore = some t → t % Second = 0) ∧
  (∀ t, c.RegisteredClaims.IssuedAt = some t → t % Second = 0)

/-- Decoding inverts encoding: a token string assembled from an `alg`, a claim
set with whole-second dates and a signature splits back into the same parts. -/
def JWTLib.RoundTrips (lib : JWTLib) : Prop :=
  ∀ (alg : String) (c : JWTClaims) (sig : GoString), WholeSeconds c →
    lib.split (lib.join (lib.signingString alg c) sig) =
      some { signingString := lib.signingString alg c, alg := some alg,
             claims := c, signature := some sig }

/-- Method `SigningMethod.Sign` with a byte-slice key. Only the HMAC methods
accept such a key. -/
def SigningMethod.Sign (lib : JWTLib) (m : SigningMethod) (signingString key : GoString) :
    Except String GoString :=
  match m with
  | .HMAC _ hash => .ok (lib.hmac hash key signingString)
  | .other _ => .error "key is of invalid type"

/-- Method `SigningMethod.Verify` with a byte-slice key; `true` stands for a nil error. -/
def SigningMethod.Verify (lib : JWTLib) (m : SigningMethod)
    (signingString sig key : GoString) : Bool :=
  match m with
  | .HMAC _ hash => sig == lib.hmac hash key signingString
  | .other name => lib.verifyOther name signingString sig key

/-- Method `Token.SignedString`. -/
def SignedString (lib : JWTLib) (method : SigningMethod) (claims : JWTClaims)
    (key : GoString) : Except String GoString :=
  let sstr := lib.signingString method.Alg claims
  match method.Sign lib sstr key with
  | .error e => .error e
  | .ok sig => .ok (lib.join sstr sig)

/-- Failure kinds of `Parser.ParseWithClaims`, and the `invalid token` error of
`ValidateToken`. `InvalidClaims` records which of the two date checks failed. -/
inductive TokenError
  | Malformed
  | Unverifiable
  | SignatureInvalid
  | InvalidClaims (expired : Bool) (notValidYet : Bool)
  | InvalidToken
  deriving DecidableEq, Repr

/-- Method `Validator.verifyExpiresAt`, no leeway, claim not required. -/
def verifyExpiresAt (c : RegisteredClaims) (now : Time) : Bool :=
  match c.ExpiresAt with
  | none => true
  | some exp => decide (now < exp)

/-- Method `Validator.verifyNotBefore`, no leeway, claim not required. -/
def verifyNotBefore (c : RegisteredClaims) (now : Time) : Bool :=
  match c.NotBefore with
  | none => true
  | some nbf => !decide (now < nbf)

/-- Method `Validator.Validate` of the default validator (issued-at, audience,
issuer and subject are not checked); `none` stands for a nil error. -/
def Validate (c : JWTClaims) (now : Time) : Option TokenError :=
  let expired := !verifyExpiresAt c.RegisteredClaims now
  let notValidYet := !verifyNotBefore c.RegisteredClaims now
  if !expired && !notValidYet then none
  else some (.InvalidClaims expired notValidYet)

/-- Struct `jwt.Token` after parsing, as far as `ValidateToken` reads it. -/
structure Token where
  Method : SigningMethod
  Claims : JWTClaims
  Valid : Bool
  deriving DecidableEq, Repr

/-- Method `Parser.ParseWithClaims` of the default parser. `now` is the clock
reading of the validator. -/
def ParseWithClaims (lib : JWTLib) (tokenString : GoString)
    (keyFunc : SigningMethod → Except String GoString) (now : Time) :
    Except TokenError Token :=
  match lib.split tokenString with
  | none => .error .Malformed
  | some seg =>
    match seg.alg with
    | none => .error .Unverifiable
    | some alg =>
      match GetSigningMethod alg with
      | none => .error .Unverifiable
      | some method =>
        match seg.signature with
        | none => .error .Malformed
        | some sig =>
          match keyFunc method with
          | .error _ => .error .Unverifiable
          | .ok key =>
            if method.Verify lib seg.signingString sig key then
              match Validate seg.claims now with
              | some e => .error e
              | none => .ok { Method := method, Claims := seg.claims, Valid := true }
            else .error .SignatureInvalid

/-! ## internal/utils/jwt.go -/

/-- The claim set that `GenerateToken` builds. `now1`, `now2`, `now3` are the
three readings of `time.Now()`, in the order in which the struct literal
evaluates them: for `ExpiresAt`, for `IssuedAt`, for `NotBefore`. -/
def GenerateTokenClaims (cfg : Config) (now1 now2 now3 : Time) (user : User) : JWTClaims :=
  { UserID := user.ID
    Email := user.Email
    Role := user.Role
    OrganizationID := user.OrganizationID
    RegisteredClaims :=
      { ExpiresAt := some (NewNumericDate (now1 + cfg.JWTExpiration))
        IssuedAt := some (NewNumericDate now2)
        NotBefore := some (NewNumericDate now3)
        Issuer := "basketball-app"
        Subject := user.ID.String
        Audience := []
        ID := "" } }

/-- Function `GenerateToken`. -/
def GenerateToken (lib : JWTLib) (cfg : Config) (now1 now2 now3 : Time) (user : User) :
    Except String GoString :=
  let claims := GenerateTokenClaims cfg now1 now2 now3 user
  SignedString lib SigningMethodHS256 claims cfg.JWTSecret

/-- The claim set that `GenerateRefreshToken` builds; role and organization are
not set and keep their zero values. -/
def GenerateRefreshTokenClaims (cfg : Config) (now1 now2 now3 : Time) (user : User) :
    JWTClaims :=
  { UserID := user.ID
    Email := user.Email
    Role := ""
    OrganizationID := none
    RegisteredClaims :=
      { ExpiresAt := some (NewNumericDate (now1 + cfg.JWTRefreshExpiration))
        IssuedAt := some (NewNumericDate now2)
        NotBefore := some (NewNumericDate now3)
        Issuer := "basketball-app"
        Subject := user.ID.String
        Audience := []
        ID := "" } }

/-- Function `GenerateRefreshToken`. -/
def GenerateRefreshToken (lib : JWTLib) (cfg : Config) (now1 now2 now3 : Time) (user : User) :
    Except String GoString :=
  let claims := GenerateRefreshTokenClaims cfg now1 now2 now3 user
  SignedString lib SigningMethodHS256 claims cfg.JWTSecret

/-- The key function that `ValidateToken` hands to the parser. -/
def keyFunc (cfg : Config) (method : SigningMethod) : Except String GoString :=
  match method with
  | .HMAC _ _ => .ok cfg.JWTSecret
  | .other _ => .error "unexpected signing method"

/-- Function `ValidateToken`. -/
def ValidateToken (lib : JWTLib) (cfg : Config) (now : Time) (tokenString : GoString) :
    Except TokenError JWTClaims :=
  match ParseWithClaims lib tokenString (keyFunc cfg) now with
  | .error err => .error err
  | .ok token => if token.Valid then .ok token.Claims else .error .InvalidToken

/-- The seven bytes of the text `Bearer ` (with the trailing space). -/
def Bearer : GoString := [66, 101, 97, 114, 101, 114, 32]

/-- Function `ExtractTokenFromHeader`. -/
def ExtractTokenFromHeader (authHeader : GoString) : GoString :=
  if authHeader.length > 7 ∧ authHeader.take 7 = Bearer then authHeader.drop 7 else []

/-- UTF-8 bytes of one character, as Go stores text in a `string`. -/
def utf8EncodeChar (c : Char) : GoString :=
  let v := c.toNat
  if v ≤ 127 then [v]
  else if v ≤ 2047 then [192 + v / 64 % 32, 128 + v % 64]
  else if v ≤ 65535 then [224 + v / 4096 % 16, 128 + v / 64 % 64, 128 + v % 64]
  else [240 + v / 262144 % 8, 128 + v / 4096 % 64, 128 + v / 64 % 64, 128 + v % 64]

/-- UTF-8 bytes of a text. -/
def utf8 : List Char → GoString
  | [] => []
  | c :: cs => utf8EncodeChar c ++ utf8 cs

/-- The seven characters of the text `Bearer ` (with the trailing space). -/
def BearerText : List Char := ['B', 'e', 'a', 'r', 'e', 'r', ' ']

/-! ## internal/utils/response.go and the gin context -/

/-- Payloads that the handlers put in the `data` or `details` field of an envelope. -/
inductive Data
  | login (user : User) (accessToken refreshToken : GoString) (expiresIn : Int)
  | tokens (accessToken refreshToken : GoString) (expiresIn : Int)
  | user (u : User)
  | text (s : String)
  deriving DecidableEq, Repr

/-- Struct `utils.APIError`. -/
structure APIError where
  Code : String
  Message : String
  Details : Option Data
  deriving DecidableEq, Repr

/-- Struct `utils.APIResponse`. -/
structure APIResponse where
  Success : Bool
  Data : Option Data
  Error : Option APIError
  Message : String
  deriving DecidableEq, Repr

/-- Values that the stages store under the keys of a gin context (Go `any`). -/
inductive Value
  | uuid (v : UUID)
  | str (v : String)
  | role (v : UserRole)
  | orgID (v : Option UUID)
  | user (v : User)
  | nil
  deriving DecidableEq, Repr

/-- State of a `*gin.Context` as the stages see and change it. -/
structure Context where
  /-- Request header `Authorization`; `none` when the request has none. -/
  Authorization : Option GoString
  /-- Map `c.Keys`; the first pair with a key is its entry. -/
  Keys : List (String × Value)
  /-- Responses written with `c.JSON`, oldest first: status code and body. -/
  Written : List (Nat × APIResponse)
  /-- Whether `c.Abort()` was called. -/
  Aborted : Bool
  /-- How often `c.Next()` was called. -/
  NextCalls : Nat
  deriving DecidableEq, Repr

/-- Method `c.GetHeader("Authorization")`: the empty string when the header is missing. -/
def Context.GetHeader (c : Context) : GoString := c.Authorization.getD []

/-- Method `c.Set`. -/
def Context.Set (c : Context) (key : String) (v : Value) : Context :=
  { c with Keys := (key, v) :: c.Keys }

/-- Method `c.Get`. -/
def Context.Get (c : Context) (key : String) : Option Value := c.Keys.lookup key

/-- Method `c.JSON`. -/
def Context.JSON (c : Context) (code : Nat) (body : APIResponse) : Context :=
  { c with Written := c.Written ++ [(code, body)] }

/-- Method `c.Abort`. -/
def Context.Abort (c : Context) : Context := { c with Aborted := true }

/-- Method `c.Next`, called as the last statement of a stage: the stages after
this one run once it returns (see `runChain`). -/
def Context.Next (c : Context) : Context := { c with NextCalls := c.NextCalls + 1 }

def StatusOK : Nat := 200
def StatusBadRequest : Nat := 400
def StatusUnauthorized : Nat := 401
def StatusForbidden : Nat := 403
def StatusNotFound : Nat := 404
def StatusInternalServerError : Nat := 500

/-- Function `SuccessResponse`. -/
def SuccessResponse (c : Context) (data : Option Data) (message : String) : Context :=
  c.JSON StatusOK { Success := true, Data := data, Error := none, Message := message }

/-- Function `ErrorResponse`. -/
def ErrorResponse (c : Context) (statusCode : Nat) (code message : String)
    (details : Option Data) : Context :=
  c.JSON statusCode
    { Success := false, Data := none,
      Error := some { Code := code, Message := message, Details := details },
      Message := "" }

/-- Function `BadRequest`. -/
def BadRequest (c : Context) (message : String) (details : Option Data) : Context :=
  ErrorResponse c StatusBadRequest "BAD_REQUEST" message details

/-- Function `Unauthorized`. -/
def Unauthorized (c : Context) (message : String) : Context :=
  ErrorResponse c StatusUnauthorized "UNAUTHORIZED" message none

/-- Function `Forbidden`. -/
def Forbidden (c : Context) (message : String) : Context :=
  ErrorResponse c StatusForbidden "FORBIDDEN" message none

/-- Function `NotFound`. -/
def NotFound (c : Context) (message : String) : Context :=
  ErrorResponse c StatusNotFound "NOT_FOUND" message none

/-- Function `InternalServerError`. -/
def InternalServerError (c : Context) (message : String) : Context :=
  ErrorResponse c StatusInternalServerError "INTERNAL_ERROR" message none

/-- A gin handler. -/
abbrev HandlerFunc := Context → Context

/-- How gin runs a chain of handlers: in order, stopping after a handler that
aborted. -/
def runChain : List HandlerFunc → Context → Context
  | [], c => c
  | h :: rest, c =>
    let c1 := h c
    if c1.Aborted then c1 else runChain rest c1

/-! ## internal/middleware/auth.go -/

/-- Function `AuthMiddleware`. `validate` is `utils.ValidateToken` (with the
configuration and the clock of the request), `db` the table behind `database.DB`. -/
def AuthMiddleware (validate : GoString → Except TokenError JWTClaims) (db : DB) :
    HandlerFunc := fun c =>
  let authHeader := c.GetHeader
  if authHeader = [] then
    (Unauthorized c "Authorization header required").Abort
  else
    let token := ExtractTokenFromHeader authHeader
    if token = [] then
      (Unauthorized c "Invalid authorization header format").Abort
    else
      match validate token with
      | .error _ => (Unauthorized c "Invalid or expired token").Abort
      | .ok claims =>
        match db.First claims.UserID with
        | none => (Unauthorized c "User not found").Abort
        | some user =>
          if !user.IsActive then
            (Forbidden c "Account is inactive").Abort
          else
            let c := c.Set "user_id" (.uuid claims.UserID)
            let c := c.Set "user_email" (.str claims.Email)
            let c := c.Set "user_role" (.role claims.Role)
            let c := c.Set "organization_id" (.orgID claims.OrganizationID)
            let c := c.Set "user" (.user user)
            c.Next

/-- Function `GetUserIDFromContext`. -/
def GetUserIDFromContext (c : Context) : UUID × Bool :=
  match c.Get "user_id" with
  | none => (0, false)
  | some (.uuid id) => (id, true)
  | some _ => (0, false)

/-- Function `GetUserRoleFromContext`. -/
def GetUserRoleFromContext (c : Context) : UserRole × Bool :=
  match c.Get "user_role" with
  | none => ("", false)
  | some (.role userRole) => (userRole, true)
  | some _ => ("", false)

/-- Function `GetOrganizationIDFromContext`. -/
def GetOrganizationIDFromContext (c : Context) : Option UUID × Bool :=
  match c.Get "organization_id" with
  | none => (none, false)
  | some .nil => (none, true)
  | some (.orgID id) => (id, true)
  | some _ => (none, false)

/-! ## internal/middleware/permission.go -/

/-- The loop of `RequireRole`: `allowed` starts false and becomes true at the
first role of the list equal to `userRole`, where the loop ends. -/
def roleLoop (userRole : UserRole) : List UserRole → Bool
  | [] => false
  | role :: rest => if userRole == role then true else roleLoop userRole rest

/-- Function `RequireRole`. -/
def RequireRole (roles : List UserRole) : HandlerFunc := fun c =>
  let (userRole, found) := GetUserRoleFromContext c
  if !found then
    (Unauthorized c "User role not found in context").Abort
  else
    let allowed := roleLoop userRole roles
    if !allowed then
      (Forbidden c "Insufficient permissions").Abort
    else
      c.Next

/-- Function `RequireAdmin`. -/
def RequireAdmin : HandlerFunc := RequireRole [RoleSuperAdmin]

/-- Function `RequireOrgAdmin`. -/
def RequireOrgAdmin : HandlerFunc := RequireRole [RoleSuperAdmin, RoleOrgAdmin]

/-- Function `RequireAdminOrOrgAdmin`. -/
def RequireAdminOrOrgAdmin : HandlerFunc := RequireRole [RoleSuperAdmin, RoleOrgAdmin]

/-- Function `CheckOrganizationAccess`. -/
def CheckOrganizationAccess (orgIDGetter : Context → UUID) : HandlerFunc := fun c =>
  let (userRole, _) := GetUserRoleFromContext c
  let (userOrgID, _) := GetOrganizationIDFromContext c
  if userRole == RoleSuperAdmin then
    c.Next
  else
    let requestedOrgID := orgIDGetter c
    if userRole == RoleOrgAdmin then
      if userOrgID.isNone || userOrgID != some requestedOrgID then
        (Forbidden c "Access denied to this organization").Abort
      else
        c.Next
    else
      c.Next

/-! ## internal/repositories/user_repository.go -/

/-- Method `UserRepository.GetByID`; `none` stands for the error result. The
preloaded `Organization` relation is left out, as in `User`. -/
def UserRepository.GetByID (db : DB) (id : UUID) : Option User := db.First id

/-- Method `UserRepository.GetByEmail`: the first row with that e-mail address
that is not soft-deleted; `none` stands for the error result. -/
def UserRepository.GetByEmail (db : DB) (email : String) : Option User :=
  db.users.find? (fun u => u.Email == email && u.DeletedAt.isNone)

/-! ## internal/services/auth_service.go -/

/-- Struct `services.LoginRequest`. -/
structure LoginRequest where
  Email : String
  Password : String
  deriving DecidableEq, Repr

/-- Struct `services.LoginResponse`. -/
structure LoginResponse where
  User : User
  AccessToken : GoString
  RefreshToken : GoString
  ExpiresIn : Int
  deriving DecidableEq, Repr

/-- Method `AuthService.Login`. `CheckPasswordHash` is `utils.CheckPasswordHash`,
whose file is not among the sources; `clock n` is the reading of `time.Now()`
number `n` during the call. The write of `last_login_at` (`UpdateLastLogin`, whose
error is dropped) happens after the tokens are made and does not enter the
result; it is left out. -/
def AuthService.Login (lib : JWTLib) (cfg : Config) (clock : Nat → Time) (db : DB)
    (CheckPasswordHash : String → String → Bool) (req : LoginRequest) :
    Except String LoginResponse :=
  match UserRepository.GetByEmail db req.Email with
  | none => .error "invalid email or password"
  | some user =>
    if !user.IsActive then
      .error "account is inactive"
    else if !CheckPasswordHash req.Password user.Password then
      .error "invalid email or password"
    else
      match GenerateToken lib cfg (clock 0) (clock 1) (clock 2) user with
      | .error _ => .error "failed to generate token"
      | .ok accessToken =>
        match GenerateRefreshToken lib cfg (clock 3) (clock 4) (clock 5) user with
        | .error _ => .error "failed to generate refresh token"
        | .ok refreshToken =>
          let expiresIn : Int := 15 * 60
          .ok { User := user, AccessToken := accessToken, RefreshToken := refreshToken,
                ExpiresIn := expiresIn }

/-- Method `AuthService.GetCurrentUser`. -/
def AuthService.GetCurrentUser (db : DB) (userID : UUID) : Option User :=
  UserRepository.GetByID db userID

/-! ## internal/handlers/auth_handler.go -/

/-- Call `c.ShouldBindJSON(&req)` for a `LoginRequest`. `body` is the JSON body
decoded into the struct (`none` when it does not decode); the binding tags are
`required,email` on `Email` and `required,min=6` on `Password`, where `min`
counts characters. `isEmail` is the e-mail rule of the validator package. The
error text stands for the message of the validator. -/
def ShouldBindLogin (isEmail : String → Bool) (body : Option LoginRequest) :
    Except String LoginRequest :=
  match body with
  | none => .error "invalid JSON"
  | some req =>
    if req.Email = "" then .error "Email failed on the required tag"
    else if !isEmail req.Email then .error "Email failed on the email tag"
    else if req.Password = "" then .error "Password failed on the required tag"
    else if req.Password.length < 6 then .error "Password failed on the min tag"
    else .ok req

/-- Call `c.ShouldBindJSON(&req)` for the request of `RefreshToken`. `body` is the
field `refresh_token` of the decoded JSON body (`none` when the body does not
decode); the binding tag is `required`. -/
def ShouldBindRefresh (body : Option GoString) : Except String GoString :=
  match body with
  | none => .error "invalid JSON"
  | some refreshToken =>
    if refreshToken = [] then .error "RefreshToken failed on the required tag"
    else .ok refreshToken

/-- Method `AuthHandler.Login`. -/
def AuthHandler.Login (lib : JWTLib) (cfg : Config) (clock : Nat → Time) (db : DB)
    (CheckPasswordHash : String → String → Bool) (isEmail : String → Bool)
    (body : Option LoginRequest) : HandlerFunc := fun c =>
  match ShouldBindLogin isEmail body with
  | .error err => BadRequest c "Invalid request data" (some (.text err))
  | .ok req =>
    match AuthService.Login lib cfg clock db CheckPasswordHash req with
    | .error err => Unauthorized c err
    | .ok response =>
      SuccessResponse c
        (some (.login response.User response.AccessToken response.RefreshToken
          response.ExpiresIn))
        "Login successful"

/-- Method `AuthHandler.RefreshToken`. `clock 0` is the reading of the validator,
`clock 1` to `clock 6` are the readings of the two token builders. -/
def AuthHandler.RefreshToken (lib : JWTLib) (cfg : Config) (clock : Nat → Time) (db : DB)
    (body : Option GoString) : HandlerFunc := fun c =>
  match ShouldBindRefresh body with
  | .error err => BadRequest c "Refresh token required" (some (.text err))
  | .ok refreshTokenString =>
    match ValidateToken lib cfg (clock 0) refreshTokenString with
    | .error _ => Unauthorized c "Invalid refresh token"
    | .ok claims =>
      match AuthService.GetCurrentUser db claims.UserID with
      | none => Unauthorized c "User not found"
      | some user =>
        match GenerateToken lib cfg (clock 1) (clock 2) (clock 3) user with
        | .error _ => InternalServerError c "Failed to generate token"
        | .ok accessToken =>
          match GenerateRefreshToken lib cfg (clock 4) (clock 5) (clock 6) user with
          | .error _ => InternalServerError c "Failed to generate refresh token"
          | .ok refreshToken =>
            SuccessResponse c (some (.tokens accessToken refreshToken 900))
              "Token refreshed successfully"

/-! ## Outcomes of a stage -/

/-- The context after a stage answered `c` with an error envelope (status,
code, message, no details) and aborted: the response is appended, `Aborted` is
set, `Keys` and `NextCalls` are as before. -/
def rejected (c : Context) (status : Nat) (code message : String) : Context :=
  { c with
    Written := c.Written ++
      [(status, { Success := false, Data := none,
                  Error := some { Code := code, Message := message, Details := none },
                  Message := "" })]
    Aborted := true }

/-- A stage rejects `c`: it answers 401 or 403 with an error envelope and aborts,
without calling `c.Next()`. -/
def StageRejects (s : HandlerFunc) (c : Context) : Prop :=
  ∃ status code message, (status = 401 ∨ status = 403) ∧ s c = rejected c status code message

/-- A stage passes `c` on: it calls `c.Next()` once, writes no response and does
not abort. -/
def StagePasses (s : HandlerFunc) (c : Context) : Prop :=
  (s c).NextCalls = c.NextCalls + 1 ∧ (s c).Written = c.Written ∧ (s c).Aborted = c.Aborted

/-! ## An instance of the library primitives

The theorems below hold for every `JWTLib`.  Closed examples need one
instance; this one writes the header and the claims as one number each
(through `Encodable`) and appends the signature.  Its keyed hash is the hash
size followed by key and message: an instance with the right shape, not a
cryptographic one. -/

/-- Code points of a string. -/
def strCodes (s : String) : List Nat := s.toList.map Char.toNat

/-- String with the given code points. -/
def ofCodes (l : List Nat) : String := String.mk (l.map Char.ofNat)

/-- The fields of a claim set as a tuple of numbers and lists. -/
abbrev ClaimsTuple :=
  Nat × List Nat × List Nat × Option Nat ×
    (List Nat × List Nat × List (List Nat) × Option Int × Option Int × Option Int × List Nat)

/-- Claim set to tuple. -/
def JWTClaims.toTuple (c : JWTClaims) : ClaimsTuple :=
  (c.UserID, strCodes c.Email, strCodes c.Role, c.OrganizationID,
    (strCodes c.RegisteredClaims.Issuer, strCodes c.RegisteredClaims.Subject,
     c.RegisteredClaims.Audience.map strCodes, c.RegisteredClaims.ExpiresAt,
     c.RegisteredClaims.NotBefore, c.RegisteredClaims.IssuedAt,
     strCodes c.RegisteredClaims.ID))

/-- Tuple to claim set. -/
def JWTClaims.ofTuple : ClaimsTuple → JWTClaims
  | (uid, email, role, org, (iss, sub, aud, exp, nbf, iat, jti)) =>
    { UserID := uid, Email := ofCodes email, Role := ofCodes role, OrganizationID := org,
      RegisteredClaims :=
        { Issuer := ofCodes iss, Subject := ofCodes sub, Audience := aud.map ofCodes,
          ExpiresAt := exp, NotBefore := nbf, IssuedAt := iat, ID := ofCodes jti } }

/-- Digest size in bytes of a hash function. -/
def Hash.size : Hash → Nat
  | .SHA256 => 32
  | .SHA384 => 48
  | .SHA512 => 64

/-- The instance. -/
def exampleLib : JWTLib where
  hmac hash key msg := hash.size :: (key ++ msg)
  verifyOther _ _ _ _ := false
  signingString alg c := [Encodable.encode (strCodes alg, c.toTuple)]
  join sstr sig := sstr ++ sig
  split tok :=
    match tok with
    | [] => none
    | n :: sig =>
      match (Encodable.decode n : Option (List Nat × ClaimsTuple)) with
      | none => none
      | some (alg, t) =>
        some { signingString := [n], alg := some (ofCodes alg),
               claims := JWTClaims.ofTuple t, signature := some sig }

/-- Configuration with the default secret and the default lifetimes (15 minutes
and 168 hours) of `LoadConfig`. -/
def defaultConfig : Config :=
  { JWTSecret := strCodes "your-secret-key-change-in-production"
    JWTExpiration := parseDuration (some (15 * Minute))
    JWTRefreshExpiration := parseDuration (some (168 * Hour)) }

/-! ## Example data -/

/-- A request with the given `Authorization` header and a fresh context. -/
def request (authHeader : GoString) : Context :=
  { Authorization := some authHeader, Keys := [], Written := [], Aborted := false,
    NextCalls := 0 }

/-- An active super admin without an organization. -/
def alice : User :=
  { ID := 7, Email := "alice@example.com", Password := "$2a$10$hash", Role := RoleSuperAdmin,
    OrganizationID := none, FullName := "Alice", Phone := "", ProfileImageURL := "",
    Status := UserStatusActive, LastLoginAt := none, CreatedAt := 0, UpdatedAt := 0,
    DeletedAt := none }

/-- The row of `alice` after her role was lowered to `public`. -/
def aliceDowngraded : User := { alice with Role := RolePublic }

/-- The row of `alice` after her account was deactivated. -/
def aliceInactive : User := { alice with Status := UserStatusInactive }

/-- The token string that `SignedString` assembles for HS256. -/
def signedHS256 (lib : JWTLib) (claims : JWTClaims) (key : GoString) : GoString :=
  lib.join (lib.signingString "HS256" claims)
    (lib.hmac .SHA256 key (lib.signingString "HS256" claims))

/-- The access token issued to `alice` at instant 0 under `defaultConfig`. -/
def aliceToken : GoString :=
  signedHS256 exampleLib (GenerateTokenClaims defaultConfig 0 0 0 alice) defaultConfig.JWTSecret

/-- The token of `alice` with a signature made under another secret. -/
def forgedToken : GoString :=
  signedHS256 exampleLib (GenerateTokenClaims defaultConfig 0 0 0 alice) (strCodes "guess")

/-- A context as `AuthMiddleware` leaves it for a principal with the given role
and organization. -/
def authed (role : UserRole) (org : Option UUID) : Context :=
  { Authorization := none
    Keys := [("organization_id", .orgID org), ("user_role", .role role)]
    Written := [], Aborted := false, NextCalls := 1 }

/-- The refresh token issued to `alice` at instant 0 under `defaultConfig`. -/
def aliceRefreshToken : GoString :=
  signedHS256 exampleLib (GenerateRefreshTokenClaims defaultConfig 0 0 0 alice)
    defaultConfig.JWTSecret

/-- A token with the claims of `aliceToken` whose header names HS512 and whose
signature is the SHA-512 keyed hash under the configured secret. -/
def hs512Token : GoString :=
  exampleLib.join (exampleLib.signingString "HS512" (GenerateTokenClaims defaultConfig 0 0 0 alice))
    (exampleLib.hmac .SHA512 defaultConfig.JWTSecret
      (exampleLib.signingString "HS512" (GenerateTokenClaims defaultConfig 0 0 0 alice)))

/-- A clock that reads one second at every reading. -/
def oneSecond : Nat → Time := fun _ => Second

/-- A password check for the examples: the hash of a password is the password
with `hash:` in front. -/
def exampleCheck (password hash : String) : Bool := hash == "hash:" ++ password

/-- An e-mail rule for the examples: the address contains an at sign. -/
def exampleIsEmail (email : String) : Bool := email.toList.contains '@'

/-- The row of `alice` with a password hash that `exampleCheck` accepts for `admin123`. -/
def aliceRow : User := { alice with Password := "hash:admin123" }

/-- An active organization admin of organization 3. -/
def carol : User :=
  { alice with ID := 9, Email := "carol@example.com", Role := RoleOrgAdmin,
               OrganizationID := some 3 }

/-- The refresh token issued to `carol` at instant 0 under `defaultConfig`. -/
def carolRefreshToken : GoString :=
  signedHS256 exampleLib (GenerateRefreshTokenClaims defaultConfig 0 0 0 carol)
    defaultConfig.JWTSecret

/-- The segments of `aliceToken`. -/
def aliceSegments : Segments :=
  { signingString :=
      exampleLib.signingString "HS256" (GenerateTokenClaims defaultConfig 0 0 0 alice)
    alg := some "HS256"
    claims := GenerateTokenClaims defaultConfig 0 0 0 alice
    signature := some (exampleLib.hmac .SHA256 defaultConfig.JWTSecret
      (exampleLib.signingString "HS256" (GenerateTokenClaims defaultConfig 0 0 0 alice))) }

/-- The row of `aliceRow` after her account was deactivated. -/
def aliceRowInactive : User := { aliceRow with Status := UserStatusInactive }

/-! ## Lemmas shared by the theorems -/

theorem map_ofNat_toNat (l : List Char) : l.map (Char.ofNat ∘ Char.toNat) = l := by
  induction l with
  | nil => rfl
  | cons a t ih => simp [ih, Char.ofNat_toNat]

theorem ofCodes_strCodes (s : String) : ofCodes (strCodes s) = s := by
  cases s with
  | mk l => simp only [ofCodes, strCodes, List.map_map, map_ofNat_toNat, String.toList]

theorem map_ofCodes_strCodes (l : List String) : (l.map strCodes).map ofCodes = l := by
  induction l with
  | nil => rfl
  | cons a t ih => simpa [ofCodes_strCodes] using ih

theorem ofTuple_toTuple (c : JWTClaims) : JWTClaims.ofTuple c.toTuple = c := by
  cases c with
  | mk uid email role org rc =>
    cases rc with
    | mk iss sub aud exp nbf iat jti =>
      simp only [JWTClaims.ofTuple, JWTClaims.toTuple, ofCodes_strCodes, map_ofCodes_strCodes]

theorem exampleLib_split_cons (n : Nat) (sig : GoString) :
    exampleLib.split (n :: sig) =
      match (Encodable.decode n : Option (List Nat × ClaimsTuple)) with
      | none => none
      | some (alg, t) =>
        some { signingString := [n], alg := some (ofCodes alg),
               claims := JWTClaims.ofTuple t, signature := some sig } := rfl

theorem exampleLib_signingString (alg : String) (c : JWTClaims) :
    exampleLib.signingString alg c = [Encodable.encode (strCodes alg, c.toTuple)] := rfl

theorem exampleLib_join (a b : GoString) : exampleLib.join a b = a ++ b := rfl

theorem exampleLib_roundTrips : exampleLib.RoundTrips := by
  unfold JWTLib.RoundTrips
  intro alg c sig _
  rw [exampleLib_signingString, exampleLib_join, List.singleton_append,
    exampleLib_split_cons, Encodable.encodek]
  simp only [ofCodes_strCodes, ofTuple_toTuple]

/-! ### Dates -/

theorem NewNumericDate_eq (t : Int) : NewNumericDate t = t - t % 1000000000 := rfl

theorem NewNumericDate_mod (t : Int) : NewNumericDate t % Second = 0 := by
  show (t - t % 1000000000) % (1000000000 : Int) = 0
  omega

theorem NewNumericDate_le (t : Int) : NewNumericDate t ≤ t := by
  show t - t % 1000000000 ≤ t
  omega

theorem lt_NewNumericDate_add (t : Int) : t < NewNumericDate t + Second := by
  show t < t - t % 1000000000 + (1000000000 : Int)
  omega

theorem NewNumericDate_mono {s t : Int} (h : s ≤ t) : NewNumericDate s ≤ NewNumericDate t := by
  show s - s % 1000000000 ≤ t - t % 1000000000
  omega

theorem NewNumericDate_add_Second (t : Int) :
    NewNumericDate (t + Second) = NewNumericDate t + Second := by
  show (t + 1000000000) - (t + 1000000000) % 1000000000 = t - t % 1000000000 + (1000000000 : Int)
  omega

theorem wholeSeconds_GenerateTokenClaims (cfg : Config) (now1 now2 now3 : Time) (user : User) :
    WholeSeconds (GenerateTokenClaims cfg now1 now2 now3 user) := by
  refine ⟨?_, ?_, ?_⟩ <;> intro t ht <;>
    simp only [GenerateTokenClaims, Option.some.injEq] at ht <;>
    subst ht <;> exact NewNumericDate_mod _

theorem wholeSeconds_GenerateRefreshTokenClaims (cfg : Config) (now1 now2 now3 : Time)
    (user : User) : WholeSeconds (GenerateRefreshTokenClaims cfg now1 now2 now3 user) := by
  refine ⟨?_, ?_, ?_⟩ <;> intro t ht <;>
    simp only [GenerateRefreshTokenClaims, Option.some.injEq] at ht <;>
    subst ht <;> exact NewNumericDate_mod _

/-! ### Signing and validating -/

theorem SignedString_HS256 (lib : JWTLib) (claims : JWTClaims) (key : GoString) :
    SignedString lib SigningMethodHS256 claims key = .ok (signedHS256 lib claims key) := rfl

theorem GenerateToken_eq (lib : JWTLib) (cfg : Config) (now1 now2 now3 : Time) (user : User) :
    GenerateToken lib cfg now1 now2 now3 user =
      .ok (signedHS256 lib (GenerateTokenClaims cfg now1 now2 now3 user) cfg.JWTSecret) := rfl

theorem GenerateRefreshToken_eq (lib : JWTLib) (cfg : Config) (now1 now2 now3 : Time)
    (user : User) :
    GenerateRefreshToken lib cfg now1 now2 now3 user =
      .ok (signedHS256 lib (GenerateRefreshTokenClaims cfg now1 now2 now3 user)
        cfg.JWTSecret) := rfl

/-- What `ValidateToken` does with a token string assembled from an HS256 header,
claims and a signature: it compares the signature and then checks the dates. -/
theorem ValidateToken_join (lib : JWTLib) (hlib : lib.RoundTrips) (cfg : Config)
    (now : Time) (claims : JWTClaims) (hw : WholeSeconds claims) (sig : GoString) :
    ValidateToken lib cfg now (lib.join (lib.signingString "HS256" claims) sig) =
      if sig = lib.hmac .SHA256 cfg.JWTSecret (lib.signingString "HS256" claims) then
        match Validate claims now with
        | some e => .error e
        | none => .ok claims
      else .error .SignatureInvalid := by
  have hm : GetSigningMethod "HS256" = some SigningMethodHS256 := by decide
  simp only [ValidateToken, ParseWithClaims, hlib "HS256" claims sig hw, hm, SigningMethodHS256,
    keyFunc, SigningMethod.Verify, beq_iff_eq]
  by_cases hs : sig = lib.hmac .SHA256 cfg.JWTSecret (lib.signingString "HS256" claims)
  · simp only [if_pos hs]
    cases Validate claims now <;> rfl
  · simp only [if_neg hs]

/-- A token signed with HS256 under the configured secret validates to its own
claims when the validator accepts their dates. -/
theorem ValidateToken_signedHS256 (lib : JWTLib) (hlib : lib.RoundTrips) (cfg : Config)
    (now : Time) (claims : JWTClaims) (hw : WholeSeconds claims)
    (hv : Validate claims now = none) :
    ValidateToken lib cfg now (signedHS256 lib claims cfg.JWTSecret) = .ok claims := by
  unfold signedHS256
  rw [ValidateToken_join lib hlib cfg now claims hw, if_pos rfl, hv]

theorem Validate_eq_none (c : JWTClaims) (now exp nbf : Time)
    (he : c.RegisteredClaims.ExpiresAt = some exp) (hn : c.RegisteredClaims.NotBefore = some nbf)
    (h1 : nbf ≤ now) (h2 : now < exp) : Validate c now = none := by
  simp [Validate, verifyExpiresAt, verifyNotBefore, he, hn, h2, not_lt.mpr h1]

/-! ### The stages -/

theorem ExtractTokenFromHeader_nil : ExtractTokenFromHeader [] = [] := rfl

theorem ExtractTokenFromHeader_Bearer_append (tok : GoString) :
    ExtractTokenFromHeader (Bearer ++ tok) = tok := by
  cases tok with
  | nil => rfl
  | cons a t => simp [ExtractTokenFromHeader, Bearer]

theorem ExtractTokenFromHeader_ne_nil {h : GoString} (hne : ExtractTokenFromHeader h ≠ []) :
    h = Bearer ++ ExtractTokenFromHeader h := by
  unfold ExtractTokenFromHeader at hne ⊢
  split
  · next hc =>
    conv_lhs => rw [← List.take_append_drop 7 h]
    rw [hc.2]
  · next hc => simp [hc] at hne

/-- The context that `AuthMiddleware` hands on when every check succeeded. -/
theorem AuthMiddleware_pass (validate : GoString → Except TokenError JWTClaims) (db : DB)
    (c : Context) (claims : JWTClaims) (user : User)
    (ht : ExtractTokenFromHeader c.GetHeader ≠ [])
    (hv : validate (ExtractTokenFromHeader c.GetHeader) = .ok claims)
    (hu : db.First claims.UserID = some user) (ha : user.IsActive = true) :
    AuthMiddleware validate db c =
      { c with
        Keys := ("user", .user user) :: ("organization_id", .orgID claims.OrganizationID) ::
          ("user_role", .role claims.Role) :: ("user_email", .str claims.Email) ::
          ("user_id", .uuid claims.UserID) :: c.Keys
        NextCalls := c.NextCalls + 1 } := by
  have hh : c.GetHeader ≠ [] := by
    intro h0
    rw [h0] at ht
    exact ht rfl
  simp [AuthMiddleware, hh, ht, hv, hu, ha, Context.Set, Context.Next]

/-- Every run of `AuthMiddleware` is one of six: five rejections and the pass. -/
theorem AuthMiddleware_cases (validate : GoString → Except TokenError JWTClaims) (db : DB)
    (c : Context) :
    (c.GetHeader = [] ∧
      AuthMiddleware validate db c = (Unauthorized c "Authorization header required").Abort) ∨
    (c.GetHeader ≠ [] ∧ ExtractTokenFromHeader c.GetHeader = [] ∧
      AuthMiddleware validate db c =
        (Unauthorized c "Invalid authorization header format").Abort) ∨
    (ExtractTokenFromHeader c.GetHeader ≠ [] ∧
      (∃ e, validate (ExtractTokenFromHeader c.GetHeader) = .error e) ∧
      AuthMiddleware validate db c = (Unauthorized c "Invalid or expired token").Abort) ∨
    (ExtractTokenFromHeader c.GetHeader ≠ [] ∧
      (∃ claims, validate (ExtractTokenFromHeader c.GetHeader) = .ok claims ∧
        db.First claims.UserID = none) ∧
      AuthMiddleware validate db c = (Unauthorized c "User not found").Abort) ∨
    (ExtractTokenFromHeader c.GetHeader ≠ [] ∧
      (∃ claims user, validate (ExtractTokenFromHeader c.GetHeader) = .ok claims ∧
        db.First claims.UserID = some user ∧ user.IsActive = false) ∧
      AuthMiddleware validate db c = (Forbidden c "Account is inactive").Abort) ∨
    (ExtractTokenFromHeader c.GetHeader ≠ [] ∧
      ∃ claims user, validate (ExtractTokenFromHeader c.GetHeader) = .ok claims ∧
        db.First claims.UserID = some user ∧ user.IsActive = true ∧
        AuthMiddleware validate db c =
          { c with
            Keys := ("user", .user user) ::
              ("organization_id", .orgID claims.OrganizationID) ::
              ("user_role", .role claims.Role) :: ("user_email", .str claims.Email) ::
              ("user_id", .uuid claims.UserID) :: c.Keys
            NextCalls := c.NextCalls + 1 }) := by
  by_cases hh : c.GetHeader = []
  · left
    exact ⟨hh, by simp [AuthMiddleware, hh]⟩
  · right
    by_cases ht : ExtractTokenFromHeader c.GetHeader = []
    · left
      exact ⟨hh, ht, by simp [AuthMiddleware, hh, ht]⟩
    · right
      cases hv : validate (ExtractTokenFromHeader c.GetHeader) with
      | error e =>
        left
        exact ⟨ht, ⟨e, rfl⟩, by simp [AuthMiddleware, hh, ht, hv]⟩
      | ok claims =>
        right
        cases hu : db.First claims.UserID with
        | none =>
          left
          exact ⟨ht, ⟨claims, rfl, hu⟩, by simp [AuthMiddleware, hh, ht, hv, hu]⟩
        | some user =>
          right
          cases ha : user.IsActive with
          | false =>
            left
            exact ⟨ht, ⟨claims, user, rfl, hu, ha⟩, by simp [AuthMiddleware, hh, ht, hv, hu, ha]⟩
          | true =>
            right
            exact ⟨ht, claims, user, rfl, hu, ha, AuthMiddleware_pass validate db c claims user ht hv hu ha⟩

theorem reject_eq (c : Context) (statusCode : Nat) (code message : String) :
    (ErrorResponse c statusCode code message none).Abort =
      rejected c statusCode code message := rfl

theorem Unauthorized_Abort (c : Context) (message : String) :
    (Unauthorized c message).Abort = rejected c 401 "UNAUTHORIZED" message := rfl

theorem Forbidden_Abort (c : Context) (message : String) :
    (Forbidden c message).Abort = rejected c 403 "FORBIDDEN" message := rfl

theorem rejected_inj {c : Context} {s1 s2 : Nat} {k1 k2 m1 m2 : String}
    (h : rejected c s1 k1 m1 = rejected c s2 k2 m2) : s1 = s2 ∧ k1 = k2 ∧ m1 = m2 := by
  simp only [rejected, Context.mk.injEq, List.append_cancel_left_eq, List.cons.injEq,
    Prod.mk.injEq, APIResponse.mk.injEq, Option.some.injEq, APIError.mk.injEq, and_true,
    true_and] at h
  exact h

theorem rejected_NextCalls (c : Context) (s : Nat) (k m : String) :
    (rejected c s k m).NextCalls = c.NextCalls := rfl

theorem runChain_rejected (h : HandlerFunc) (rest : List HandlerFunc) (c : Context)
    (s : Nat) (k m : String) (hr : h c = rejected c s k m) :
    runChain (h :: rest) c = rejected c s k m := by
  simp [runChain, hr, rejected]

theorem runChain_pass (h : HandlerFunc) (rest : List HandlerFunc) (c : Context)
    (ha : (h c).Aborted = false) : runChain (h :: rest) c = runChain rest (h c) := by
  simp [runChain, ha]

theorem roleLoop_iff (userRole : UserRole) (roles : List UserRole) :
    roleLoop userRole roles = true ↔ userRole ∈ roles := by
  induction roles with
  | nil => simp [roleLoop]
  | cons role rest ih =>
    by_cases h : userRole = role
    · simp [roleLoop, h]
    · simp [roleLoop, h, ih]

theorem RequireRole_of_role (roles : List UserRole) (c : Context) (r : UserRole)
    (hr : GetUserRoleFromContext c = (r, true)) :
    RequireRole roles c =
      if r ∈ roles then c.Next else (Forbidden c "Insufficient permissions").Abort := by
  by_cases hm : r ∈ roles
  · simp [RequireRole, hr, (roleLoop_iff r roles).mpr hm, hm]
  · have hl : roleLoop r roles = false := by
      cases hb : roleLoop r roles with
      | false => rfl
      | true => exact absurd ((roleLoop_iff r roles).mp hb) hm
    simp [RequireRole, hr, hl, hm]

theorem aliceToken_ne_nil : aliceToken ≠ [] := by
  show signedHS256 exampleLib _ _ ≠ []
  unfold signedHS256
  rw [exampleLib_signingString, exampleLib_join, List.singleton_append]
  exact List.cons_ne_nil _ _

theorem Validate_alice_claims :
    Validate (GenerateTokenClaims defaultConfig 0 0 0 alice) Second = none := by decide

theorem ValidateToken_aliceToken :
    ValidateToken exampleLib defaultConfig Second aliceToken =
      .ok (GenerateTokenClaims defaultConfig 0 0 0 alice) :=
  ValidateToken_signedHS256 exampleLib exampleLib_roundTrips defaultConfig Second _
    (wholeSeconds_GenerateTokenClaims _ _ _ _ _) Validate_alice_claims

theorem GetHeader_request (h : GoString) : (request h).GetHeader = h := rfl

/-! ## C1: which role `RequireRole` compares -/

/-- C1, counterexample: `alice` is issued a token while she is `super_admin`; her
stored role is then lowered to `public`. A request with that token passes
`AuthMiddleware`, which reloads the row with role `public`, and then passes
`RequireRole(super_admin)`: the comparison used the role in the token. -/
theorem C1_counterexample :
    GenerateToken exampleLib defaultConfig 0 0 0 alice = .ok aliceToken ∧
    alice.Role = RoleSuperAdmin ∧
    (DB.mk [aliceDowngraded]).First alice.ID = some aliceDowngraded ∧
    aliceDowngraded.Role = RolePublic ∧
    (AuthMiddleware (ValidateToken exampleLib defaultConfig Second) (DB.mk [aliceDowngraded])
        (request (Bearer ++ aliceToken))).Get "user" = some (.user aliceDowngraded) ∧
    RequireRole [RoleSuperAdmin]
        (AuthMiddleware (ValidateToken exampleLib defaultConfig Second)
          (DB.mk [aliceDowngraded]) (request (Bearer ++ aliceToken))) =
      { Authorization := some (Bearer ++ aliceToken)
        Keys := [("user", .user aliceDowngraded), ("organization_id", .orgID none),
                 ("user_role", .role RoleSuperAdmin), ("user_email", .str "alice@example.com"),
                 ("user_id", .uuid 7)]
        Written := []
        Aborted := false
        NextCalls := 2 } := by
  have hpass := AuthMiddleware_pass (ValidateToken exampleLib defaultConfig Second)
    (DB.mk [aliceDowngraded]) (request (Bearer ++ aliceToken))
    (GenerateTokenClaims defaultConfig 0 0 0 alice) aliceDowngraded
    (by rw [GetHeader_request, ExtractTokenFromHeader_Bearer_append]; exact aliceToken_ne_nil)
    (by rw [GetHeader_request, ExtractTokenFromHeader_Bearer_append]
        exact ValidateToken_aliceToken)
    (by decide) (by decide)
  refine ⟨rfl, rfl, by decide, rfl, ?_, ?_⟩
  · rw [hpass]
    rfl
  · rw [hpass]
    rfl

/-- C1, amended: for every request that passes `AuthMiddleware`, the token
validated to some claims and the store returned a row for their subject; the
row is attached under the key `user`, but the role that `RequireRole` reads
from the context is the role of the claims, and `RequireRole(allowedRoles)`
passes exactly when that role is in the list. The role of the stored row does
not enter the decision. -/
theorem C1_RequireRole_compares_token_role (lib : JWTLib) (cfg : Config) (now : Time) (db : DB)
    (c : Context) (roles : List UserRole)
    (hpass : (AuthMiddleware (ValidateToken lib cfg now) db c).NextCalls = c.NextCalls + 1) :
    ∃ claims user,
      ValidateToken lib cfg now (ExtractTokenFromHeader c.GetHeader) = .ok claims ∧
      db.First claims.UserID = some user ∧
      (AuthMiddleware (ValidateToken lib cfg now) db c).Get "user" = some (.user user) ∧
      GetUserRoleFromContext (AuthMiddleware (ValidateToken lib cfg now) db c) =
        (claims.Role, true) ∧
      RequireRole roles (AuthMiddleware (ValidateToken lib cfg now) db c) =
        if claims.Role ∈ roles then (AuthMiddleware (ValidateToken lib cfg now) db c).Next
        else (Forbidden (AuthMiddleware (ValidateToken lib cfg now) db c)
          "Insufficient permissions").Abort := by
  rcases AuthMiddleware_cases (ValidateToken lib cfg now) db c with
    h | h | h | h | h | ⟨_, claims, user, hv, hu, _, heq⟩
  · rw [h.2, Unauthorized_Abort, rejected_NextCalls] at hpass; omega
  · rw [h.2.2, Unauthorized_Abort, rejected_NextCalls] at hpass; omega
  · rw [h.2.2, Unauthorized_Abort, rejected_NextCalls] at hpass; omega
  · rw [h.2.2, Unauthorized_Abort, rejected_NextCalls] at hpass; omega
  · rw [h.2.2, Forbidden_Abort, rejected_NextCalls] at hpass; omega
  · have hrole : GetUserRoleFromContext (AuthMiddleware (ValidateToken lib cfg now) db c) =
        (claims.Role, true) := by
      rw [heq]
      rfl
    exact ⟨claims, user, hv, hu, by rw [heq]; rfl, hrole, RequireRole_of_role roles _ _ hrole⟩

/-- C1, amended, at the request of the counterexample. -/
theorem C1_RequireRole_compares_token_role_witness :
    (AuthMiddleware (ValidateToken exampleLib defaultConfig Second) (DB.mk [aliceDowngraded])
        (request (Bearer ++ aliceToken))).NextCalls = (request (Bearer ++ aliceToken)).NextCalls + 1 ∧
    ∃ claims user,
      ValidateToken exampleLib defaultConfig Second
        (ExtractTokenFromHeader (request (Bearer ++ aliceToken)).GetHeader) = .ok claims ∧
      (DB.mk [aliceDowngraded]).First claims.UserID = some user ∧
      (AuthMiddleware (ValidateToken exampleLib defaultConfig Second) (DB.mk [aliceDowngraded])
        (request (Bearer ++ aliceToken))).Get "user" = some (.user user) ∧
      GetUserRoleFromContext (AuthMiddleware (ValidateToken exampleLib defaultConfig Second)
        (DB.mk [aliceDowngraded]) (request (Bearer ++ aliceToken))) = (claims.Role, true) ∧
      RequireRole [RoleSuperAdmin] (AuthMiddleware (ValidateToken exampleLib defaultConfig Second)
          (DB.mk [aliceDowngraded]) (request (Bearer ++ aliceToken))) =
        if claims.Role ∈ [RoleSuperAdmin] then
          (AuthMiddleware (ValidateToken exampleLib defaultConfig Second)
            (DB.mk [aliceDowngraded]) (request (Bearer ++ aliceToken))).Next
        else (Forbidden (AuthMiddleware (ValidateToken exampleLib defaultConfig Second)
          (DB.mk [aliceDowngraded]) (request (Bearer ++ aliceToken)))
          "Insufficient permissions").Abort := by
  have hpass : (AuthMiddleware (ValidateToken exampleLib defaultConfig Second)
      (DB.mk [aliceDowngraded]) (request (Bearer ++ aliceToken))).NextCalls =
      (request (Bearer ++ aliceToken)).NextCalls + 1 := by
    rw [AuthMiddleware_pass (ValidateToken exampleLib defaultConfig Second)
      (DB.mk [aliceDowngraded]) (request (Bearer ++ aliceToken))
      (GenerateTokenClaims defaultConfig 0 0 0 alice) aliceDowngraded
      (by rw [GetHeader_request, ExtractTokenFromHeader_Bearer_append]; exact aliceToken_ne_nil)
      (by rw [GetHeader_request, ExtractTokenFromHeader_Bearer_append]
          exact ValidateToken_aliceToken)
      (by decide) (by decide)]
  exact ⟨hpass, C1_RequireRole_compares_token_role exampleLib defaultConfig Second
    (DB.mk [aliceDowngraded]) (request (Bearer ++ aliceToken)) [RoleSuperAdmin] hpass⟩

/-! ## C2: an inactive account is rejected with 403 -/

theorem header_of_Authorization {c : Context} {tok : GoString}
    (hh : c.Authorization = some (Bearer ++ tok)) :
    ExtractTokenFromHeader c.GetHeader = tok := by
  simp only [Context.GetHeader, hh, Option.getD_some, ExtractTokenFromHeader_Bearer_append]

theorem IsActive_eq_false {user : User} (hs : user.Status ≠ UserStatusActive) :
    user.IsActive = false := by
  simp [User.IsActive, hs]

/-- C2: when the bearer token of a request passes `ValidateToken` and the store
has a row for the subject whose status is not `active`, `AuthMiddleware` answers
403 with code FORBIDDEN and message `Account is inactive`, aborts (no later stage
runs), calls no next stage and leaves the keys of the context as they were. -/
theorem C2_inactive_account_forbidden (lib : JWTLib) (cfg : Config) (now : Time) (db : DB)
    (c : Context) (tok : GoString) (claims : JWTClaims) (user : User)
    (rest : List HandlerFunc)
    (hh : c.Authorization = some (Bearer ++ tok)) (htok : tok ≠ [])
    (hv : ValidateToken lib cfg now tok = .ok claims)
    (hu : db.First claims.UserID = some user)
    (hs : user.Status ≠ UserStatusActive) :
    AuthMiddleware (ValidateToken lib cfg now) db c =
        rejected c 403 "FORBIDDEN" "Account is inactive" ∧
      (AuthMiddleware (ValidateToken lib cfg now) db c).Keys = c.Keys ∧
      (AuthMiddleware (ValidateToken lib cfg now) db c).Aborted = true ∧
      (AuthMiddleware (ValidateToken lib cfg now) db c).NextCalls = c.NextCalls ∧
      runChain (AuthMiddleware (ValidateToken lib cfg now) db :: rest) c =
        rejected c 403 "FORBIDDEN" "Account is inactive" := by
  have ht := header_of_Authorization hh
  have hne : c.GetHeader ≠ [] := by
    simp [Context.GetHeader, hh, Bearer]
  have heq : AuthMiddleware (ValidateToken lib cfg now) db c =
      rejected c 403 "FORBIDDEN" "Account is inactive" := by
    rw [← Forbidden_Abort]
    simp [AuthMiddleware, hne, ht, htok, hv, hu, IsActive_eq_false hs]
  refine ⟨heq, ?_, ?_, ?_, runChain_rejected _ rest c _ _ _ heq⟩ <;> rw [heq] <;> rfl

/-- C2 at a request: the token of `alice` is still valid, her row is inactive. -/
theorem C2_inactive_account_forbidden_witness :
    ((request (Bearer ++ aliceToken)).Authorization = some (Bearer ++ aliceToken) ∧
      aliceToken ≠ [] ∧
      ValidateToken exampleLib defaultConfig Second aliceToken =
        .ok (GenerateTokenClaims defaultConfig 0 0 0 alice) ∧
      (DB.mk [aliceInactive]).First (GenerateTokenClaims defaultConfig 0 0 0 alice).UserID =
        some aliceInactive ∧
      aliceInactive.Status ≠ UserStatusActive) ∧
    (AuthMiddleware (ValidateToken exampleLib defaultConfig Second) (DB.mk [aliceInactive])
        (request (Bearer ++ aliceToken)) =
        rejected (request (Bearer ++ aliceToken)) 403 "FORBIDDEN" "Account is inactive" ∧
      (AuthMiddleware (ValidateToken exampleLib defaultConfig Second) (DB.mk [aliceInactive])
        (request (Bearer ++ aliceToken))).Keys = (request (Bearer ++ aliceToken)).Keys ∧
      (AuthMiddleware (ValidateToken exampleLib defaultConfig Second) (DB.mk [aliceInactive])
        (request (Bearer ++ aliceToken))).Aborted = true ∧
      (AuthMiddleware (ValidateToken exampleLib defaultConfig Second) (DB.mk [aliceInactive])
        (request (Bearer ++ aliceToken))).NextCalls = (request (Bearer ++ aliceToken)).NextCalls ∧
      runChain (AuthMiddleware (ValidateToken exampleLib defaultConfig Second)
          (DB.mk [aliceInactive]) :: [RequireAdmin]) (request (Bearer ++ aliceToken)) =
        rejected (request (Bearer ++ aliceToken)) 403 "FORBIDDEN" "Account is inactive") :=
  ⟨⟨rfl, aliceToken_ne_nil, ValidateToken_aliceToken, by decide, by decide⟩,
   C2_inactive_account_forbidden exampleLib defaultConfig Second (DB.mk [aliceInactive])
    (request (Bearer ++ aliceToken)) aliceToken (GenerateTokenClaims defaultConfig 0 0 0 alice)
    aliceInactive [RequireAdmin] rfl aliceToken_ne_nil ValidateToken_aliceToken
    (by decide) (by decide)⟩

/-! ## C3: the header checks -/

theorem utf8EncodeChar_ascii_head {c : Char} {b : Nat} {bs : GoString}
    (h : utf8EncodeChar c = b :: bs) (hb : b < 128) : bs = [] ∧ c = Char.ofNat b := by
  unfold utf8EncodeChar at h
  simp only at h
  split at h
  · simp only [List.cons.injEq] at h
    refine ⟨h.2.symm, ?_⟩
    rw [← h.1, Char.ofNat_toNat]
  · split at h
    · simp only [List.cons.injEq] at h
      omega
    · split at h
      · simp only [List.cons.injEq] at h
        omega
      · simp only [List.cons.injEq] at h
        omega

theorem utf8EncodeChar_of_ascii {c : Char} (h : c.toNat < 128) : utf8EncodeChar c = [c.toNat] := by
  unfold utf8EncodeChar
  simp only
  rw [if_pos (by omega)]

theorem utf8EncodeChar_ne_nil (c : Char) : utf8EncodeChar c ≠ [] := by
  unfold utf8EncodeChar
  simp only
  split
  · simp
  · split
    · simp
    · split <;> simp

theorem utf8_eq_nil {s : List Char} : utf8 s = [] ↔ s = [] := by
  cases s with
  | nil => simp [utf8]
  | cons c cs => simp [utf8, utf8EncodeChar_ne_nil]

theorem utf8_append (s t : List Char) : utf8 (s ++ t) = utf8 s ++ utf8 t := by
  induction s with
  | nil => rfl
  | cons c cs ih => simp [utf8, ih]

theorem utf8_ascii (p : List Char) (hp : ∀ c ∈ p, c.toNat < 128) : utf8 p = p.map Char.toNat := by
  induction p with
  | nil => rfl
  | cons a p ih =>
    simp only [utf8, List.map_cons]
    rw [utf8EncodeChar_of_ascii (hp a (List.mem_cons_self _ _)),
      ih (fun c hc => hp c (List.mem_cons_of_mem _ hc))]
    rfl

theorem take_utf8_iff (p : List Char) (hp : ∀ c ∈ p, c.toNat < 128) (s : List Char) :
    (utf8 s).take p.length = p.map Char.toNat ↔ s.take p.length = p := by
  induction p generalizing s with
  | nil => simp
  | cons a p ih =>
    have ha : a.toNat < 128 := hp a (List.mem_cons_self _ _)
    have hp2 : ∀ c ∈ p, c.toNat < 128 := fun c hc => hp c (List.mem_cons_of_mem _ hc)
    cases s with
    | nil => simp [utf8]
    | cons c cs =>
      constructor
      · intro h
        cases he : utf8EncodeChar c with
        | nil => exact absurd he (utf8EncodeChar_ne_nil c)
        | cons b bs =>
          simp only [utf8, he, List.length_cons, List.cons_append, List.take_succ_cons,
            List.map_cons, List.cons.injEq] at h
          obtain ⟨hb, hrest⟩ := h
          obtain ⟨hbs, hc⟩ := utf8EncodeChar_ascii_head he (by omega)
          subst hbs
          rw [List.nil_append] at hrest
          have hca : c = a := by rw [hc, hb, Char.ofNat_toNat]
          simp only [List.length_cons, List.take_succ_cons, List.cons.injEq]
          exact ⟨hca, (ih hp2 cs).mp hrest⟩
      · intro h
        simp only [List.length_cons, List.take_succ_cons, List.cons.injEq] at h
        obtain ⟨hca, hrest⟩ := h
        subst hca
        simp only [utf8, utf8EncodeChar_of_ascii ha, List.length_cons, List.singleton_append,
          List.take_succ_cons, List.map_cons, List.cons.injEq, true_and]
        exact (ih hp2 cs).mpr hrest

theorem ExtractTokenFromHeader_utf8 (s : List Char) :
    ExtractTokenFromHeader (utf8 s) =
      if 7 < s.length ∧ s.take 7 = BearerText then utf8 (s.drop 7) else [] := by
  have hp : ∀ c ∈ BearerText, c.toNat < 128 := by decide
  have hiff := take_utf8_iff BearerText hp s
  have hB : BearerText.map Char.toNat = Bearer := by decide
  have hl : BearerText.length = 7 := rfl
  rw [hB, hl] at hiff
  unfold ExtractTokenFromHeader
  by_cases ht : s.take 7 = BearerText
  · have hs : utf8 s = Bearer ++ utf8 (s.drop 7) := by
      conv_lhs => rw [← List.take_append_drop 7 s, ht, utf8_append, utf8_ascii _ hp, hB]
    have hlen : (utf8 s).length > 7 ↔ 7 < s.length := by
      rw [hs]
      have h1 : 0 < (utf8 (s.drop 7)).length ↔ s.drop 7 ≠ [] := by
        rw [List.length_pos, Ne, Ne, utf8_eq_nil]
      have h2 : s.drop 7 ≠ [] ↔ 7 < s.length := by
        simp [List.drop_eq_nil_iff]
      have h3 : (Bearer ++ utf8 (s.drop 7)).length = 7 + (utf8 (s.drop 7)).length := by
        simp [Bearer]
        omega
      rw [h3, ← h2, ← h1]
      omega
    by_cases h7 : 7 < s.length
    · rw [if_pos ⟨hlen.mpr h7, hiff.mpr ht⟩, if_pos ⟨h7, ht⟩]
      rw [hs]
      simp [Bearer]
    · rw [if_neg (fun h => h7 (hlen.mp h.1)), if_neg (fun h => h7 h.1)]
  · rw [if_neg (fun h => ht (hiff.mp h.2)), if_neg (fun h => ht h.2)]

theorem header_ne_nil {h : GoString} (ht : ExtractTokenFromHeader h ≠ []) : h ≠ [] := by
  intro h0
  rw [h0] at ht
  exact ht rfl

/-- C3: `AuthMiddleware` answers 401 `Authorization header required` exactly when
the header is missing or empty, and 401 `Invalid authorization header format`
exactly when the header is not empty and not `Bearer ` followed by at least one
byte; in both cases the outcome is the same for every validator and store, so
no token was validated. `ExtractTokenFromHeader` returns the bytes after the
first seven when the header is longer than seven bytes and starts with
`Bearer `, and the empty string otherwise; for a header that is UTF-8 text this
is: the characters after the first seven when the text is longer than seven
characters and starts with `Bearer `, and the empty string otherwise. -/
theorem C3_header_checks (validate : GoString → Except TokenError JWTClaims) (db : DB)
    (c : Context) :
    (AuthMiddleware validate db c = rejected c 401 "UNAUTHORIZED" "Authorization header required"
        ↔ c.Authorization = none ∨ c.Authorization = some []) ∧
    (AuthMiddleware validate db c =
          rejected c 401 "UNAUTHORIZED" "Invalid authorization header format"
        ↔ c.GetHeader ≠ [] ∧ ¬ ∃ tok, tok ≠ [] ∧ c.GetHeader = Bearer ++ tok) ∧
    ((c.GetHeader = [] ∨ ¬ ∃ tok, tok ≠ [] ∧ c.GetHeader = Bearer ++ tok) →
        ∀ validate2 db2, AuthMiddleware validate2 db2 c = AuthMiddleware validate db c) ∧
    (∀ h : GoString, ExtractTokenFromHeader h =
        if 7 < h.length ∧ h.take 7 = Bearer then h.drop 7 else []) ∧
    (∀ tok : GoString, ExtractTokenFromHeader (Bearer ++ tok) = tok) ∧
    (∀ h : GoString, (¬ ∃ tok, tok ≠ [] ∧ h = Bearer ++ tok) ↔ ExtractTokenFromHeader h = []) ∧
    (∀ s : List Char, ExtractTokenFromHeader (utf8 s) =
        if 7 < s.length ∧ s.take 7 = BearerText then utf8 (s.drop 7) else []) := by
  have hform : ∀ h : GoString,
      (¬ ∃ tok, tok ≠ [] ∧ h = Bearer ++ tok) ↔ ExtractTokenFromHeader h = [] := by
    intro h
    constructor
    · intro hn
      by_contra hne
      exact hn ⟨_, hne, ExtractTokenFromHeader_ne_nil hne⟩
    · rintro h0 ⟨tok, htok, rfl⟩
      rw [ExtractTokenFromHeader_Bearer_append] at h0
      exact htok h0
  have hempty : (c.Authorization = none ∨ c.Authorization = some []) ↔ c.GetHeader = [] := by
    unfold Context.GetHeader
    cases c.Authorization <;> simp
  refine ⟨?_, ?_, ?_, fun _ => rfl, ExtractTokenFromHeader_Bearer_append, hform,
    ExtractTokenFromHeader_utf8⟩
  · rw [hempty]
    rcases AuthMiddleware_cases validate db c with
      h | h | ⟨ht, h⟩ | ⟨ht, h⟩ | ⟨ht, h⟩ | ⟨ht, claims, user, _, _, _, heq⟩
    · simp [h.1, h.2, Unauthorized_Abort]
    · rw [h.2.2, Unauthorized_Abort]
      exact ⟨fun he => absurd (rejected_inj he).2.2 (by decide), fun he => absurd he h.1⟩
    · rw [h.2, Unauthorized_Abort]
      exact ⟨fun he => absurd (rejected_inj he).2.2 (by decide),
        fun he => absurd he (header_ne_nil ht)⟩
    · rw [h.2, Unauthorized_Abort]
      exact ⟨fun he => absurd (rejected_inj he).2.2 (by decide),
        fun he => absurd he (header_ne_nil ht)⟩
    · rw [h.2, Forbidden_Abort]
      exact ⟨fun he => absurd (rejected_inj he).1 (by decide),
        fun he => absurd he (header_ne_nil ht)⟩
    · rw [heq]
      constructor
      · intro he
        have := congrArg Context.NextCalls he
        simp [rejected] at this
      · intro he
        exact absurd he (header_ne_nil ht)
  · rw [hform]
    rcases AuthMiddleware_cases validate db c with
      h | h | ⟨ht, h⟩ | ⟨ht, h⟩ | ⟨ht, h⟩ | ⟨ht, claims, user, _, _, _, heq⟩
    · rw [h.2, Unauthorized_Abort]
      exact ⟨fun he => absurd (rejected_inj he).2.2 (by decide), fun he => absurd h.1 he.1⟩
    · simp [h.1, h.2.1, h.2.2, Unauthorized_Abort]
    · rw [h.2, Unauthorized_Abort]
      exact ⟨fun he => absurd (rejected_inj he).2.2 (by decide), fun he => absurd he.2 ht⟩
    · rw [h.2, Unauthorized_Abort]
      exact ⟨fun he => absurd (rejected_inj he).2.2 (by decide), fun he => absurd he.2 ht⟩
    · rw [h.2, Forbidden_Abort]
      exact ⟨fun he => absurd (rejected_inj he).1 (by decide), fun he => absurd he.2 ht⟩
    · rw [heq]
      constructor
      · intro he
        have := congrArg Context.NextCalls he
        simp [rejected] at this
      · intro he
        exact absurd he.2 ht
  · intro hc validate2 db2
    have h0 : ExtractTokenFromHeader c.GetHeader = [] := by
      rcases hc with hc | hc
      · rw [hc]
        rfl
      · exact (hform _).mp hc
    by_cases hh : c.GetHeader = []
    · simp [AuthMiddleware, hh]
    · simp [AuthMiddleware, hh, h0]

/-! ## C4: one answer for every validation failure -/

theorem AuthMiddleware_invalid_token (validate : GoString → Except TokenError JWTClaims)
    (db : DB) (c : Context) (tok : GoString) (e : TokenError)
    (hh : c.Authorization = some (Bearer ++ tok)) (htok : tok ≠ [])
    (hv : validate tok = .error e) :
    AuthMiddleware validate db c = rejected c 401 "UNAUTHORIZED" "Invalid or expired token" := by
  have ht := header_of_Authorization hh
  have hne : c.GetHeader ≠ [] := header_ne_nil (by rw [ht]; exact htok)
  rw [← Unauthorized_Abort]
  simp [AuthMiddleware, hne, ht, htok, hv]

/-- C4: two requests whose bearer tokens fail `ValidateToken`, with whatever
errors `e1` and `e2`, get the same response from `AuthMiddleware`: status 401,
code UNAUTHORIZED, message `Invalid or expired token`, no details. Both are
aborted and neither reaches a next stage. -/
theorem C4_validation_failures_indistinguishable (lib : JWTLib) (cfg : Config)
    (now1 now2 : Time) (db1 db2 : DB) (c1 c2 : Context) (tok1 tok2 : GoString)
    (e1 e2 : TokenError)
    (hh1 : c1.Authorization = some (Bearer ++ tok1)) (ht1 : tok1 ≠ [])
    (hv1 : ValidateToken lib cfg now1 tok1 = .error e1)
    (hh2 : c2.Authorization = some (Bearer ++ tok2)) (ht2 : tok2 ≠ [])
    (hv2 : ValidateToken lib cfg now2 tok2 = .error e2) :
    AuthMiddleware (ValidateToken lib cfg now1) db1 c1 =
        rejected c1 401 "UNAUTHORIZED" "Invalid or expired token" ∧
      AuthMiddleware (ValidateToken lib cfg now2) db2 c2 =
        rejected c2 401 "UNAUTHORIZED" "Invalid or expired token" ∧
      (AuthMiddleware (ValidateToken lib cfg now1) db1 c1).Written.getLast? =
        some (401, { Success := false, Data := none,
                     Error := some { Code := "UNAUTHORIZED",
                                     Message := "Invalid or expired token",
                                     Details := none },
                     Message := "" }) ∧
      (AuthMiddleware (ValidateToken lib cfg now1) db1 c1).Written.getLast? =
        (AuthMiddleware (ValidateToken lib cfg now2) db2 c2).Written.getLast? := by
  have h1 := AuthMiddleware_invalid_token (ValidateToken lib cfg now1) db1 c1 tok1 e1 hh1 ht1 hv1
  have h2 := AuthMiddleware_invalid_token (ValidateToken lib cfg now2) db2 c2 tok2 e2 hh2 ht2 hv2
  refine ⟨h1, h2, ?_, ?_⟩
  · rw [h1]
    simp [rejected]
  · rw [h1, h2]
    simp [rejected]

theorem forgedToken_ne_nil : forgedToken ≠ [] := by
  show signedHS256 exampleLib _ _ ≠ []
  unfold signedHS256
  rw [exampleLib_signingString, exampleLib_join, List.singleton_append]
  exact List.cons_ne_nil _ _

theorem ValidateToken_aliceToken_expired :
    ValidateToken exampleLib defaultConfig (1000 * Second) aliceToken =
      .error (.InvalidClaims true false) := by
  show ValidateToken exampleLib defaultConfig (1000 * Second) (signedHS256 exampleLib _ _) = _
  unfold signedHS256
  rw [ValidateToken_join exampleLib exampleLib_roundTrips defaultConfig _ _
    (wholeSeconds_GenerateTokenClaims _ _ _ _ _), if_pos rfl]
  have hv : Validate (GenerateTokenClaims defaultConfig 0 0 0 alice) (1000 * Second) =
      some (.InvalidClaims true false) := by decide
  rw [hv]

theorem ValidateToken_forgedToken :
    ValidateToken exampleLib defaultConfig Second forgedToken = .error .SignatureInvalid := by
  show ValidateToken exampleLib defaultConfig Second (signedHS256 exampleLib _ _) = _
  unfold signedHS256
  rw [ValidateToken_join exampleLib exampleLib_roundTrips defaultConfig _ _
    (wholeSeconds_GenerateTokenClaims _ _ _ _ _), if_neg]
  show ¬ (Hash.size .SHA256 :: (strCodes "guess" ++ _) =
    Hash.size .SHA256 :: (defaultConfig.JWTSecret ++ _))
  intro h
  have h2 := List.append_cancel_right (List.cons.inj h).2
  revert h2
  decide

/-- C4 at two requests: an expired token and a token signed under another secret. -/
theorem C4_validation_failures_indistinguishable_witness :
    (aliceToken ≠ [] ∧
      ValidateToken exampleLib defaultConfig (1000 * Second) aliceToken =
        .error (.InvalidClaims true false) ∧
      forgedToken ≠ [] ∧
      ValidateToken exampleLib defaultConfig Second forgedToken = .error .SignatureInvalid) ∧
    (AuthMiddleware (ValidateToken exampleLib defaultConfig (1000 * Second)) (DB.mk [alice])
        (request (Bearer ++ aliceToken)) =
        rejected (request (Bearer ++ aliceToken)) 401 "UNAUTHORIZED" "Invalid or expired token" ∧
      AuthMiddleware (ValidateToken exampleLib defaultConfig Second) (DB.mk [alice])
        (request (Bearer ++ forgedToken)) =
        rejected (request (Bearer ++ forgedToken)) 401 "UNAUTHORIZED" "Invalid or expired token" ∧
      (AuthMiddleware (ValidateToken exampleLib defaultConfig (1000 * Second)) (DB.mk [alice])
        (request (Bearer ++ aliceToken))).Written.getLast? =
        some (401, { Success := false, Data := none,
                     Error := some { Code := "UNAUTHORIZED",
                                     Message := "Invalid or expired token",
                                     Details := none },
                     Message := "" }) ∧
      (AuthMiddleware (ValidateToken exampleLib defaultConfig (1000 * Second)) (DB.mk [alice])
        (request (Bearer ++ aliceToken))).Written.getLast? =
        (AuthMiddleware (ValidateToken exampleLib defaultConfig Second) (DB.mk [alice])
          (request (Bearer ++ forgedToken))).Written.getLast?) :=
  ⟨⟨aliceToken_ne_nil, ValidateToken_aliceToken_expired, forgedToken_ne_nil,
    ValidateToken_forgedToken⟩,
   C4_validation_failures_indistinguishable exampleLib defaultConfig (1000 * Second) Second
    (DB.mk [alice]) (DB.mk [alice]) (request (Bearer ++ aliceToken))
    (request (Bearer ++ forgedToken)) aliceToken forgedToken
    (.InvalidClaims true false) .SignatureInvalid
    rfl aliceToken_ne_nil ValidateToken_aliceToken_expired
    rfl forgedToken_ne_nil ValidateToken_forgedToken⟩

/-! ## C5: a stage either rejects and aborts, or passes on -/

theorem not_rejects_and_passes (s : HandlerFunc) (c : Context) :
    ¬ (StageRejects s c ∧ StagePasses s c) := by
  rintro ⟨⟨status, code, message, _, hr⟩, hp, _, _⟩
  rw [hr, rejected_NextCalls] at hp
  omega

theorem RequireRole_cases (roles : List UserRole) (c : Context) :
    RequireRole roles c = rejected c 401 "UNAUTHORIZED" "User role not found in context" ∨
    RequireRole roles c = rejected c 403 "FORBIDDEN" "Insufficient permissions" ∨
    RequireRole roles c = c.Next := by
  unfold RequireRole
  rcases GetUserRoleFromContext c with ⟨r, found⟩
  cases found with
  | false => left; rfl
  | true =>
    right
    cases hl : roleLoop r roles with
    | false => left; simp [hl, Forbidden_Abort]
    | true => right; simp [hl]

theorem CheckOrganizationAccess_cases (getter : Context → UUID) (c : Context) :
    CheckOrganizationAccess getter c =
        rejected c 403 "FORBIDDEN" "Access denied to this organization" ∨
    CheckOrganizationAccess getter c = c.Next := by
  unfold CheckOrganizationAccess
  simp only [← Forbidden_Abort]
  split <;> try split
  all_goals (try split)
  all_goals first
    | exact Or.inl rfl
    | exact Or.inr rfl

theorem stage_rejects_or_passes (validate : GoString → Except TokenError JWTClaims) (db : DB)
    (roles : List UserRole) (getter : Context → UUID) (s : HandlerFunc)
    (hs : s = AuthMiddleware validate db ∨ s = RequireRole roles ∨
      s = CheckOrganizationAccess getter) (c : Context) :
    StageRejects s c ∨ StagePasses s c := by
  rcases hs with rfl | rfl | rfl
  · rcases AuthMiddleware_cases validate db c with
      h | h | ⟨_, h⟩ | ⟨_, h⟩ | ⟨_, h⟩ | ⟨_, claims, user, _, _, _, heq⟩
    · exact Or.inl ⟨401, _, _, Or.inl rfl, by rw [h.2, Unauthorized_Abort]⟩
    · exact Or.inl ⟨401, _, _, Or.inl rfl, by rw [h.2.2, Unauthorized_Abort]⟩
    · exact Or.inl ⟨401, _, _, Or.inl rfl, by rw [h.2, Unauthorized_Abort]⟩
    · exact Or.inl ⟨401, _, _, Or.inl rfl, by rw [h.2, Unauthorized_Abort]⟩
    · exact Or.inl ⟨403, _, _, Or.inr rfl, by rw [h.2, Forbidden_Abort]⟩
    · right
      unfold StagePasses
      rw [heq]
      exact ⟨rfl, rfl, rfl⟩
  · rcases RequireRole_cases roles c with h | h | h
    · exact Or.inl ⟨401, _, _, Or.inl rfl, h⟩
    · exact Or.inl ⟨403, _, _, Or.inr rfl, h⟩
    · right
      unfold StagePasses
      rw [h]
      exact ⟨rfl, rfl, rfl⟩
  · rcases CheckOrganizationAccess_cases getter c with h | h
    · exact Or.inl ⟨403, _, _, Or.inr rfl, h⟩
    · right
      unfold StagePasses
      rw [h]
      exact ⟨rfl, rfl, rfl⟩

/-- C5: for each of `AuthMiddleware`, `RequireRole` and `CheckOrganizationAccess`
and every context that is not yet aborted, exactly one of two things happens.
Either the stage writes one error response (401 or 403), aborts and does not
call the next stage, and then the chain stops there whatever stages follow; or
it calls the next stage once, writes nothing and does not abort, and then the
rest of the chain runs on the context it hands on. -/
theorem C5_stage_rejects_xor_passes (validate : GoString → Except TokenError JWTClaims)
    (db : DB) (roles : List UserRole) (getter : Context → UUID) (s : HandlerFunc)
    (hs : s = AuthMiddleware validate db ∨ s = RequireRole roles ∨
      s = CheckOrganizationAccess getter)
    (c : Context) (hc : c.Aborted = false) (rest : List HandlerFunc) :
    (StageRejects s c ∧ ¬ StagePasses s c ∧
        (s c).Aborted = true ∧ (s c).NextCalls = c.NextCalls ∧
        (∃ response, (s c).Written = c.Written ++ [response]) ∧
        runChain (s :: rest) c = s c) ∨
    (StagePasses s c ∧ ¬ StageRejects s c ∧
        (s c).Aborted = false ∧ (s c).NextCalls = c.NextCalls + 1 ∧
        (s c).Written = c.Written ∧
        runChain (s :: rest) c = runChain rest (s c)) := by
  rcases stage_rejects_or_passes validate db roles getter s hs c with hr | hp
  · left
    refine ⟨hr, fun hp => not_rejects_and_passes s c ⟨hr, hp⟩, ?_⟩
    obtain ⟨status, code, message, _, heq⟩ := hr
    refine ⟨by rw [heq]; rfl, by rw [heq]; rfl, ⟨_, by rw [heq]; rfl⟩, ?_⟩
    rw [runChain_rejected s rest c _ _ _ heq, heq]
  · right
    have ha : (s c).Aborted = false := by rw [hp.2.2, hc]
    exact ⟨hp, fun hr => not_rejects_and_passes s c ⟨hr, hp⟩, ha, hp.1, hp.2.1,
      runChain_pass s rest c ha⟩

/-- C5 at a chain: `RequireAdmin` followed by `RequireOrgAdmin`, for a `public` principal. -/
theorem C5_stage_rejects_xor_passes_witness :
    (authed RolePublic none).Aborted = false ∧
    ((StageRejects RequireAdmin (authed RolePublic none) ∧
        ¬ StagePasses RequireAdmin (authed RolePublic none) ∧
        (RequireAdmin (authed RolePublic none)).Aborted = true ∧
        (RequireAdmin (authed RolePublic none)).NextCalls = (authed RolePublic none).NextCalls ∧
        (∃ response, (RequireAdmin (authed RolePublic none)).Written =
          (authed RolePublic none).Written ++ [response]) ∧
        runChain (RequireAdmin :: [RequireOrgAdmin]) (authed RolePublic none) =
          RequireAdmin (authed RolePublic none)) ∨
     (StagePasses RequireAdmin (authed RolePublic none) ∧
        ¬ StageRejects RequireAdmin (authed RolePublic none) ∧
        (RequireAdmin (authed RolePublic none)).Aborted = false ∧
        (RequireAdmin (authed RolePublic none)).NextCalls =
          (authed RolePublic none).NextCalls + 1 ∧
        (RequireAdmin (authed RolePublic none)).Written = (authed RolePublic none).Written ∧
        runChain (RequireAdmin :: [RequireOrgAdmin]) (authed RolePublic none) =
          runChain [RequireOrgAdmin] (RequireAdmin (authed RolePublic none)))) :=
  ⟨rfl, C5_stage_rejects_xor_passes (fun _ => .error .Malformed) (DB.mk []) [RoleSuperAdmin]
    (fun _ => 0) RequireAdmin (Or.inr (Or.inl rfl)) (authed RolePublic none) rfl
    [RequireOrgAdmin]⟩

/-! ## C6: `RequireRole` is membership in the list -/

theorem Next_ne_rejected (c : Context) (status : Nat) (code message : String) :
    c.Next ≠ rejected c status code message := by
  intro h
  have := congrArg Context.NextCalls h
  simp [Context.Next, rejected] at this

theorem GetUserRoleFromContext_of_Get {c : Context} {r : UserRole}
    (hr : c.Get "user_role" = some (.role r)) : GetUserRoleFromContext c = (r, true) := by
  simp [GetUserRoleFromContext, hr]

theorem RequireRole_pass_iff (roles : List UserRole) (c : Context) (r : UserRole)
    (hr : GetUserRoleFromContext c = (r, true)) : RequireRole roles c = c.Next ↔ r ∈ roles := by
  rw [RequireRole_of_role roles c r hr]
  by_cases hm : r ∈ roles
  · simp [hm]
  · simp only [hm, if_false, iff_false, Forbidden_Abort]
    exact fun h => Next_ne_rejected c _ _ _ h.symm

/-- C6: when the context holds a role `r`, `RequireRole(allowedRoles)` passes the
request on exactly when `r` is in `allowedRoles`, and otherwise answers 403
FORBIDDEN `Insufficient permissions` and aborts. With an empty list every role is
rejected; `RequireAdmin` passes only `super_admin`; `RequireOrgAdmin` passes
exactly `super_admin` and `org_admin`. -/
theorem C6_RequireRole_membership (roles : List UserRole) (c : Context) (r : UserRole)
    (hr : c.Get "user_role" = some (.role r)) :
    (RequireRole roles c = c.Next ↔ r ∈ roles) ∧
    (RequireRole roles c = rejected c 403 "FORBIDDEN" "Insufficient permissions" ↔ r ∉ roles) ∧
    RequireRole [] c = rejected c 403 "FORBIDDEN" "Insufficient permissions" ∧
    (RequireAdmin c = c.Next ↔ r = RoleSuperAdmin) ∧
    (RequireOrgAdmin c = c.Next ↔ r = RoleSuperAdmin ∨ r = RoleOrgAdmin) := by
  have hg := GetUserRoleFromContext_of_Get hr
  refine ⟨RequireRole_pass_iff roles c r hg, ?_, ?_, ?_, ?_⟩
  · rw [RequireRole_of_role roles c r hg]
    by_cases hm : r ∈ roles
    · simp only [hm, if_true, not_true, iff_false]
      exact Next_ne_rejected c _ _ _
    · simp [hm, Forbidden_Abort]
  · rw [RequireRole_of_role [] c r hg]
    simp [Forbidden_Abort]
  · unfold RequireAdmin
    rw [RequireRole_pass_iff _ c r hg]
    simp
  · unfold RequireOrgAdmin
    rw [RequireRole_pass_iff _ c r hg]
    simp

/-- C6 at a context: an `org_admin` before `RequireRole(super_admin, team_member)`. -/
theorem C6_RequireRole_membership_witness :
    (authed RoleOrgAdmin (some 1)).Get "user_role" = some (.role RoleOrgAdmin) ∧
    ((RequireRole [RoleSuperAdmin, RoleTeamMember] (authed RoleOrgAdmin (some 1)) =
        (authed RoleOrgAdmin (some 1)).Next ↔ RoleOrgAdmin ∈ [RoleSuperAdmin, RoleTeamMember]) ∧
    (RequireRole [RoleSuperAdmin, RoleTeamMember] (authed RoleOrgAdmin (some 1)) =
        rejected (authed RoleOrgAdmin (some 1)) 403 "FORBIDDEN" "Insufficient permissions" ↔
      RoleOrgAdmin ∉ [RoleSuperAdmin, RoleTeamMember]) ∧
    RequireRole [] (authed RoleOrgAdmin (some 1)) =
      rejected (authed RoleOrgAdmin (some 1)) 403 "FORBIDDEN" "Insufficient permissions" ∧
    (RequireAdmin (authed RoleOrgAdmin (some 1)) = (authed RoleOrgAdmin (some 1)).Next ↔
      RoleOrgAdmin = RoleSuperAdmin) ∧
    (RequireOrgAdmin (authed RoleOrgAdmin (some 1)) = (authed RoleOrgAdmin (some 1)).Next ↔
      RoleOrgAdmin = RoleSuperAdmin ∨ RoleOrgAdmin = RoleOrgAdmin)) :=
  ⟨rfl, C6_RequireRole_membership [RoleSuperAdmin, RoleTeamMember] (authed RoleOrgAdmin (some 1))
    RoleOrgAdmin rfl⟩

/-! ## C7: organization access of the two admin roles -/

/-- C7: for a principal that is `super_admin` or `org_admin`,
`CheckOrganizationAccess` passes exactly when the role is `super_admin` or the
principal has an organization id equal to the requested one, and otherwise
answers 403 FORBIDDEN `Access denied to this organization`. A `super_admin`
passes for every way of picking the target (the target is not consulted) and
whatever organization id the context holds; an `org_admin` of organization `A`
passes exactly when `A` is the target; an `org_admin` without organization id
is rejected. -/
theorem C7_CheckOrganizationAccess_admins (getter : Context → UUID) (c : Context)
    (hadmin : (GetUserRoleFromContext c).1 = RoleSuperAdmin ∨
      (GetUserRoleFromContext c).1 = RoleOrgAdmin) :
    (CheckOrganizationAccess getter c = c.Next ↔
        ((GetUserRoleFromContext c).1 = RoleSuperAdmin ∨
          (GetOrganizationIDFromContext c).1 = some (getter c))) ∧
    (CheckOrganizationAccess getter c =
          rejected c 403 "FORBIDDEN" "Access denied to this organization" ↔
        ((GetUserRoleFromContext c).1 = RoleOrgAdmin ∧
          (GetOrganizationIDFromContext c).1 ≠ some (getter c))) ∧
    ((GetUserRoleFromContext c).1 = RoleSuperAdmin →
        ∀ getter2, CheckOrganizationAccess getter2 c = c.Next) ∧
    (∀ A, (GetUserRoleFromContext c).1 = RoleOrgAdmin →
        (GetOrganizationIDFromContext c).1 = some A →
        (CheckOrganizationAccess getter c = c.Next ↔ A = getter c)) ∧
    ((GetUserRoleFromContext c).1 = RoleOrgAdmin →
        (GetOrganizationIDFromContext c).1 = none →
        CheckOrganizationAccess getter c =
          rejected c 403 "FORBIDDEN" "Access denied to this organization") := by
  have hne : RoleOrgAdmin ≠ RoleSuperAdmin := by decide
  have hsuper : (GetUserRoleFromContext c).1 = RoleSuperAdmin →
      ∀ getter2, CheckOrganizationAccess getter2 c = c.Next := by
    intro hr getter2
    simp [CheckOrganizationAccess, hr]
  have horg : (GetUserRoleFromContext c).1 = RoleOrgAdmin →
      CheckOrganizationAccess getter c =
        if (GetOrganizationIDFromContext c).1 = some (getter c) then c.Next
        else rejected c 403 "FORBIDDEN" "Access denied to this organization" := by
    intro hr
    rw [← Forbidden_Abort]
    cases ho : (GetOrganizationIDFromContext c).1 with
    | none => simp [CheckOrganizationAccess, hr, hne, ho]
    | some A =>
      by_cases hA : A = getter c
      · simp [CheckOrganizationAccess, hr, hne, ho, hA]
      · simp [CheckOrganizationAccess, hr, hne, ho, hA]
  refine ⟨?_, ?_, hsuper, ?_, ?_⟩
  · rcases hadmin with hr | hr
    · simp [hsuper hr getter, hr]
    · rw [horg hr]
      by_cases ho : (GetOrganizationIDFromContext c).1 = some (getter c)
      · simp [ho]
      · simp only [ho, if_false, hr, hne, false_or, iff_false]
        exact fun h => Next_ne_rejected c _ _ _ h.symm
  · rcases hadmin with hr | hr
    · rw [hsuper hr getter]
      constructor
      · intro h
        exact absurd h (Next_ne_rejected c _ _ _)
      · intro h
        rw [hr] at h
        exact absurd h.1.symm hne
    · rw [horg hr]
      by_cases ho : (GetOrganizationIDFromContext c).1 = some (getter c)
      · simp only [ho, if_true, ne_eq, not_true, and_false, iff_false]
        exact Next_ne_rejected c _ _ _
      · simp [ho, hr]
  · intro A hr ho
    rw [horg hr, ho]
    by_cases hA : A = getter c
    · simp [hA]
    · simp only [Option.some.injEq, hA, if_false, iff_false]
      exact fun h => Next_ne_rejected c _ _ _ h.symm
  · intro hr ho
    rw [horg hr, ho]
    simp

/-- C7 at a context: an `org_admin` of organization 1 asking for organization 2. -/
theorem C7_CheckOrganizationAccess_admins_witness :
    ((GetUserRoleFromContext (authed RoleOrgAdmin (some 1))).1 = RoleSuperAdmin ∨
      (GetUserRoleFromContext (authed RoleOrgAdmin (some 1))).1 = RoleOrgAdmin) ∧
    CheckOrganizationAccess (fun _ => 2) (authed RoleOrgAdmin (some 1)) =
      rejected (authed RoleOrgAdmin (some 1)) 403 "FORBIDDEN"
        "Access denied to this organization" ∧
    CheckOrganizationAccess (fun _ => 1) (authed RoleOrgAdmin (some 1)) =
      (authed RoleOrgAdmin (some 1)).Next :=
  ⟨Or.inr rfl,
   (C7_CheckOrganizationAccess_admins (fun _ => 2) (authed RoleOrgAdmin (some 1))
      (Or.inr rfl)).2.1.mpr ⟨rfl, by decide⟩,
   (C7_CheckOrganizationAccess_admins (fun _ => 1) (authed RoleOrgAdmin (some 1))
      (Or.inr rfl)).1.mpr (Or.inr rfl)⟩

/-! ## C8: the other roles at `CheckOrganizationAccess` -/

/-- C8, the code at the failing inputs: a `team_member` of organization 1, a
`public` principal without organization, a principal with an unknown role and a
context without any role all pass `CheckOrganizationAccess` for target
organization 2: the stage calls the next one and writes no 403. -/
theorem C8_other_roles_pass :
    CheckOrganizationAccess (fun _ => 2) (authed RoleTeamMember (some 1)) =
      (authed RoleTeamMember (some 1)).Next ∧
    CheckOrganizationAccess (fun _ => 2) (authed RolePublic none) =
      (authed RolePublic none).Next ∧
    CheckOrganizationAccess (fun _ => 2) (authed "coach" (some 1)) =
      (authed "coach" (some 1)).Next ∧
    CheckOrganizationAccess (fun _ => 2) (request []) = (request []).Next ∧
    (CheckOrganizationAccess (fun _ => 2) (authed RoleTeamMember (some 1))).Written = [] ∧
    (CheckOrganizationAccess (fun _ => 2) (authed RoleTeamMember (some 1))).Aborted = false ∧
    User.CanManageOrganization { alice with Role := RoleTeamMember, OrganizationID := some 1 } 2
      = false := by
  decide

/-! ## C9: issuing and validating an access token -/

theorem NewNumericDate_lt_iff (a b : Int) :
    NewNumericDate b < NewNumericDate a ↔ NewNumericDate b + Second ≤ a := by
  show b - b % 1000000000 < a - a % 1000000000 ↔ b - b % 1000000000 + (1000000000 : Int) ≤ a
  omega

theorem NewNumericDate_le_iff (a b : Int) :
    NewNumericDate a ≤ NewNumericDate b ↔ a < NewNumericDate b + Second := by
  show a - a % 1000000000 ≤ b - b % 1000000000 ↔ a < b - b % 1000000000 + (1000000000 : Int)
  omega

theorem NewNumericDate_add_whole (t d : Int) (hd : d % Second = 0) :
    NewNumericDate (t + d) = NewNumericDate t + d := by
  have hd2 : d % 1000000000 = 0 := hd
  show (t + d) - (t + d) % 1000000000 = t - t % 1000000000 + d
  omega

/-- C9, counterexample: with the default lifetime of 15 minutes, the clock moves
from 0.999999999 s to 1 s between the reading for `ExpiresAt` and the reading for
`IssuedAt`. The token validates at 2 s, and the returned claims have expires-at
900 s and issued-at 1 s: expires-at is not issued-at plus 900 s. -/
theorem C9_counterexample :
    GenerateToken exampleLib defaultConfig 999999999 1000000000 1000000000 alice =
      .ok (signedHS256 exampleLib
        (GenerateTokenClaims defaultConfig 999999999 1000000000 1000000000 alice)
        defaultConfig.JWTSecret) ∧
    ValidateToken exampleLib defaultConfig (2 * Second)
      (signedHS256 exampleLib
        (GenerateTokenClaims defaultConfig 999999999 1000000000 1000000000 alice)
        defaultConfig.JWTSecret) =
      .ok (GenerateTokenClaims defaultConfig 999999999 1000000000 1000000000 alice) ∧
    (GenerateTokenClaims defaultConfig 999999999 1000000000 1000000000
      alice).RegisteredClaims.ExpiresAt = some (900 * Second) ∧
    (GenerateTokenClaims defaultConfig 999999999 1000000000 1000000000
      alice).RegisteredClaims.IssuedAt = some (1 * Second) ∧
    defaultConfig.JWTExpiration = 900 * Second ∧
    (900 * Second : Int) ≠ 1 * Second + defaultConfig.JWTExpiration := by
  refine ⟨rfl, ?_, by decide, by decide, by decide, by decide⟩
  exact ValidateToken_signedHS256 exampleLib exampleLib_roundTrips defaultConfig _ _
    (wholeSeconds_GenerateTokenClaims _ _ _ _ _) (by decide)

/-- C9, amended: for every user `P`, secret and access lifetime, a token issued
by `GenerateToken` and validated no earlier than its issuance and before its
expires-at is accepted by `ValidateToken`, and the returned claims carry the
user id, subject, e-mail, role and organization id (absent when absent) of `P`.
Their expires-at is the first clock reading plus the lifetime, truncated to whole
seconds, and their issued-at is the second reading truncated; expires-at equals
issued-at plus the lifetime when the lifetime is a whole number of seconds and
the two readings truncate to the same second. -/
theorem C9_generate_validate_roundtrip (lib : JWTLib) (hlib : lib.RoundTrips) (cfg : Config)
    (now1 now2 now3 now : Time) (P : User)
    (hissued : now3 ≤ now) (hbefore : now < NewNumericDate (now1 + cfg.JWTExpiration)) :
    ∃ tok claims,
      GenerateToken lib cfg now1 now2 now3 P = .ok tok ∧
      ValidateToken lib cfg now tok = .ok claims ∧
      claims.UserID = P.ID ∧
      claims.RegisteredClaims.Subject = P.ID.String ∧
      claims.Email = P.Email ∧
      claims.Role = P.Role ∧
      claims.OrganizationID = P.OrganizationID ∧
      claims.RegisteredClaims.ExpiresAt = some (NewNumericDate (now1 + cfg.JWTExpiration)) ∧
      claims.RegisteredClaims.IssuedAt = some (NewNumericDate now2) ∧
      (cfg.JWTExpiration % Second = 0 → NewNumericDate now1 = NewNumericDate now2 →
        claims.RegisteredClaims.ExpiresAt =
          some (NewNumericDate now2 + cfg.JWTExpiration)) := by
  refine ⟨_, GenerateTokenClaims cfg now1 now2 now3 P, GenerateToken_eq lib cfg now1 now2 now3 P,
    ?_, rfl, rfl, rfl, rfl, rfl, rfl, rfl, ?_⟩
  · apply ValidateToken_signedHS256 lib hlib cfg now _
      (wholeSeconds_GenerateTokenClaims _ _ _ _ _)
    exact Validate_eq_none _ now _ _ rfl rfl (le_trans (NewNumericDate_le now3) hissued) hbefore
  · intro hd hsame
    show some (NewNumericDate (now1 + cfg.JWTExpiration)) = _
    rw [NewNumericDate_add_whole now1 _ hd, hsame]

/-- C9, amended, for `alice`: issued at instant 0, validated one second later. -/
theorem C9_generate_validate_roundtrip_witness :
    ((0 : Time) ≤ Second ∧ Second < NewNumericDate (0 + defaultConfig.JWTExpiration)) ∧
    ∃ tok claims,
      GenerateToken exampleLib defaultConfig 0 0 0 alice = .ok tok ∧
      ValidateToken exampleLib defaultConfig Second tok = .ok claims ∧
      claims.UserID = alice.ID ∧
      claims.RegisteredClaims.Subject = alice.ID.String ∧
      claims.Email = alice.Email ∧
      claims.Role = alice.Role ∧
      claims.OrganizationID = alice.OrganizationID ∧
      claims.RegisteredClaims.ExpiresAt =
        some (NewNumericDate (0 + defaultConfig.JWTExpiration)) ∧
      claims.RegisteredClaims.IssuedAt = some (NewNumericDate 0) ∧
      (defaultConfig.JWTExpiration % Second = 0 → NewNumericDate 0 = NewNumericDate 0 →
        claims.RegisteredClaims.ExpiresAt =
          some (NewNumericDate 0 + defaultConfig.JWTExpiration)) :=
  ⟨⟨by decide, by decide⟩,
   C9_generate_validate_roundtrip exampleLib exampleLib_roundTrips defaultConfig 0 0 0 Second
     alice (by decide) (by decide)⟩

/-! ## C10: order of the three dates -/

/-- C10, counterexample: with the default lifetimes and the non-decreasing clock
readings 1.999999999 s, 1.999999999 s, 2 s, both claim sets have issued-at 1 s
and not-before 2 s, so issued-at is before not-before. With a configured
lifetime of zero (`parseDuration` hands on whatever duration was parsed) and
three equal readings, expires-at equals issued-at. -/
theorem C10_counterexample :
    ((1999999999 : Time) ≤ 1999999999 ∧ (1999999999 : Time) ≤ 2000000000) ∧
    (GenerateTokenClaims defaultConfig 1999999999 1999999999 2000000000
      alice).RegisteredClaims.IssuedAt = some (1 * Second) ∧
    (GenerateTokenClaims defaultConfig 1999999999 1999999999 2000000000
      alice).RegisteredClaims.NotBefore = some (2 * Second) ∧
    (GenerateRefreshTokenClaims defaultConfig 1999999999 1999999999 2000000000
      alice).RegisteredClaims.IssuedAt = some (1 * Second) ∧
    (GenerateRefreshTokenClaims defaultConfig 1999999999 1999999999 2000000000
      alice).RegisteredClaims.NotBefore = some (2 * Second) ∧
    ¬ ((1 * Second : Int) ≥ 2 * Second) ∧
    (GenerateTokenClaims { defaultConfig with JWTExpiration := parseDuration (some 0) }
      5000000000 5000000000 5000000000 alice).RegisteredClaims.ExpiresAt = some (5 * Second) ∧
    (GenerateTokenClaims { defaultConfig with JWTExpiration := parseDuration (some 0) }
      5000000000 5000000000 5000000000 alice).RegisteredClaims.IssuedAt = some (5 * Second) := by
  decide

theorem claim_dates_arith (ttl now1 now2 now3 : Int) (hclock : now1 ≤ now2 ∧ now2 ≤ now3) :
    NewNumericDate now2 ≤ NewNumericDate now3 ∧
    (NewNumericDate now3 ≤ NewNumericDate now2 ↔ now3 < NewNumericDate now2 + Second) ∧
    (NewNumericDate now2 < NewNumericDate (now1 + ttl) ↔
      NewNumericDate now2 + Second ≤ now1 + ttl) ∧
    (Second ≤ ttl → now1 = now2 → NewNumericDate now2 < NewNumericDate (now1 + ttl)) := by
  refine ⟨NewNumericDate_mono hclock.2, NewNumericDate_le_iff now3 now2,
    NewNumericDate_lt_iff (now1 + ttl) now2, ?_⟩
  intro h1 h2
  rw [NewNumericDate_lt_iff]
  have h3 : NewNumericDate now2 ≤ now2 := NewNumericDate_le now2
  subst h2
  exact add_le_add h3 h1

/-- C10, amended: for every lifetime and all non-decreasing clock readings, the
claim sets of `GenerateToken` and `GenerateRefreshToken` have issued-at not later
than not-before, and issued-at equal to not-before (so issued-at is not before
not-before) exactly when the third reading lies in the second of the second
reading. Expires-at is later than issued-at exactly when the first reading plus
the lifetime reaches the end of the second of the second reading; this holds in
particular when the lifetime is at least one second and the first two readings
are equal. -/
theorem C10_claim_dates (cfg : Config) (now1 now2 now3 : Time) (user : User)
    (hclock : now1 ≤ now2 ∧ now2 ≤ now3) :
    ∀ (claims : JWTClaims) (ttl : Duration),
      (claims, ttl) ∈
        [(GenerateTokenClaims cfg now1 now2 now3 user, cfg.JWTExpiration),
         (GenerateRefreshTokenClaims cfg now1 now2 now3 user, cfg.JWTRefreshExpiration)] →
      ∃ exp iat nbf,
        claims.RegisteredClaims.ExpiresAt = some exp ∧
        claims.RegisteredClaims.IssuedAt = some iat ∧
        claims.RegisteredClaims.NotBefore = some nbf ∧
        iat ≤ nbf ∧
        (nbf ≤ iat ↔ now3 < NewNumericDate now2 + Second) ∧
        (iat < exp ↔ NewNumericDate now2 + Second ≤ now1 + ttl) ∧
        (Second ≤ ttl → now1 = now2 → iat < exp) := by
  intro claims ttl hmem
  simp only [List.mem_cons, Prod.mk.injEq, List.mem_singleton, List.not_mem_nil, or_false] at hmem
  rcases hmem with ⟨rfl, rfl⟩ | ⟨rfl, rfl⟩
  · exact ⟨_, _, _, rfl, rfl, rfl, claim_dates_arith _ now1 now2 now3 hclock⟩
  · exact ⟨_, _, _, rfl, rfl, rfl, claim_dates_arith _ now1 now2 now3 hclock⟩

/-- C10, amended, for `alice` under the default lifetimes with three equal readings. -/
theorem C10_claim_dates_witness :
    ((0 : Time) ≤ 0 ∧ (0 : Time) ≤ 0) ∧
    ∀ (claims : JWTClaims) (ttl : Duration),
      (claims, ttl) ∈
        [(GenerateTokenClaims defaultConfig 0 0 0 alice, defaultConfig.JWTExpiration),
         (GenerateRefreshTokenClaims defaultConfig 0 0 0 alice,
           defaultConfig.JWTRefreshExpiration)] →
      ∃ exp iat nbf,
        claims.RegisteredClaims.ExpiresAt = some exp ∧
        claims.RegisteredClaims.IssuedAt = some iat ∧
        claims.RegisteredClaims.NotBefore = some nbf ∧
        iat ≤ nbf ∧
        (nbf ≤ iat ↔ (0 : Time) < NewNumericDate 0 + Second) ∧
        (iat < exp ↔ NewNumericDate 0 + Second ≤ 0 + ttl) ∧
        (Second ≤ ttl → (0 : Time) = 0 → iat < exp) :=
  ⟨⟨le_refl _, le_refl _⟩, C10_claim_dates defaultConfig 0 0 0 alice ⟨le_refl _, le_refl _⟩⟩

/-! ## Lemmas on the handlers and on `ValidateToken` -/

/-- The response of `AuthHandler.RefreshToken` when the presented token validates
and the store has a row for its subject. -/
theorem RefreshToken_found (lib : JWTLib) (cfg : Config) (clock : Nat → Time) (db : DB)
    (tok : GoString) (c : Context) (claims : JWTClaims) (user : User)
    (htok : tok ≠ []) (hv : ValidateToken lib cfg (clock 0) tok = .ok claims)
    (hu : db.First claims.UserID = some user) :
    AuthHandler.RefreshToken lib cfg clock db (some tok) c =
      SuccessResponse c
        (some (.tokens
          (signedHS256 lib (GenerateTokenClaims cfg (clock 1) (clock 2) (clock 3) user)
            cfg.JWTSecret)
          (signedHS256 lib (GenerateRefreshTokenClaims cfg (clock 4) (clock 5) (clock 6) user)
            cfg.JWTSecret)
          900))
        "Token refreshed successfully" := by
  simp [AuthHandler.RefreshToken, ShouldBindRefresh, htok, hv, AuthService.GetCurrentUser,
    UserRepository.GetByID, hu, GenerateToken_eq, GenerateRefreshToken_eq]

/-- The response of `AuthHandler.RefreshToken` when the presented token validates
and the store has no row for its subject. -/
theorem RefreshToken_missing (lib : JWTLib) (cfg : Config) (clock : Nat → Time) (db : DB)
    (tok : GoString) (c : Context) (claims : JWTClaims)
    (htok : tok ≠ []) (hv : ValidateToken lib cfg (clock 0) tok = .ok claims)
    (hu : db.First claims.UserID = none) :
    AuthHandler.RefreshToken lib cfg clock db (some tok) c = Unauthorized c "User not found" := by
  simp [AuthHandler.RefreshToken, ShouldBindRefresh, htok, hv, AuthService.GetCurrentUser,
    UserRepository.GetByID, hu]

theorem signedHS256_exampleLib_ne_nil (claims : JWTClaims) (key : GoString) :
    signedHS256 exampleLib claims key ≠ [] := by
  unfold signedHS256
  rw [exampleLib_signingString, exampleLib_join, List.singleton_append]
  exact List.cons_ne_nil _ _

theorem Validate_alice_refresh_claims :
    Validate (GenerateRefreshTokenClaims defaultConfig 0 0 0 alice) Second = none := by decide

theorem ValidateToken_aliceRefreshToken :
    ValidateToken exampleLib defaultConfig Second aliceRefreshToken =
      .ok (GenerateRefreshTokenClaims defaultConfig 0 0 0 alice) :=
  ValidateToken_signedHS256 exampleLib exampleLib_roundTrips defaultConfig Second _
    (wholeSeconds_GenerateRefreshTokenClaims _ _ _ _ _) Validate_alice_refresh_claims

/-! ## C11: the refresh flow and the reloaded user -/

/-- C11, the code at the failing input: the refresh token of `alice` validates,
the store returns her row with status `inactive`, and `AuthHandler.RefreshToken`
answers 200 with a new access token and a new refresh token built from that
row; no 401 is written. With an empty store the same request is answered 401
`User not found` without tokens. -/
theorem C11_inactive_user_is_refreshed :
    ValidateToken exampleLib defaultConfig (oneSecond 0) aliceRefreshToken =
      .ok (GenerateRefreshTokenClaims defaultConfig 0 0 0 alice) ∧
    AuthService.GetCurrentUser (DB.mk [aliceInactive])
      (GenerateRefreshTokenClaims defaultConfig 0 0 0 alice).UserID = some aliceInactive ∧
    aliceInactive.Status = UserStatusInactive ∧
    aliceInactive.IsActive = false ∧
    (AuthHandler.RefreshToken exampleLib defaultConfig oneSecond (DB.mk [aliceInactive])
        (some aliceRefreshToken) (request [])).Written =
      [(200, { Success := true
               Data := some (.tokens
                 (signedHS256 exampleLib
                   (GenerateTokenClaims defaultConfig Second Second Second aliceInactive)
                   defaultConfig.JWTSecret)
                 (signedHS256 exampleLib
                   (GenerateRefreshTokenClaims defaultConfig Second Second Second aliceInactive)
                   defaultConfig.JWTSecret)
                 900)
               Error := none
               Message := "Token refreshed successfully" })] ∧
    (AuthHandler.RefreshToken exampleLib defaultConfig oneSecond (DB.mk [])
        (some aliceRefreshToken) (request [])).Written =
      [(401, { Success := false, Data := none,
               Error := some { Code := "UNAUTHORIZED", Message := "User not found",
                               Details := none },
               Message := "" })] := by
  refine ⟨ValidateToken_aliceRefreshToken, by decide, rfl, by decide, ?_, ?_⟩
  · rw [RefreshToken_found exampleLib defaultConfig oneSecond (DB.mk [aliceInactive])
      aliceRefreshToken (request []) _ aliceInactive (signedHS256_exampleLib_ne_nil _ _)
      ValidateToken_aliceRefreshToken (by decide)]
    rfl
  · rw [RefreshToken_missing exampleLib defaultConfig oneSecond (DB.mk [])
      aliceRefreshToken (request []) _ (signedHS256_exampleLib_ne_nil _ _)
      ValidateToken_aliceRefreshToken (by decide)]
    rfl

/-! ## C12: what the refreshed tokens carry -/

theorem split_signedHS256 (lib : JWTLib) (hlib : lib.RoundTrips) (claims : JWTClaims)
    (hw : WholeSeconds claims) (key : GoString) :
    lib.split (signedHS256 lib claims key) =
      some { signingString := lib.signingString "HS256" claims, alg := some "HS256",
             claims := claims,
             signature := some (lib.hmac .SHA256 key (lib.signingString "HS256" claims)) } :=
  hlib "HS256" claims _ hw

theorem ValidateToken_carolRefreshToken :
    ValidateToken exampleLib defaultConfig Second carolRefreshToken =
      .ok (GenerateRefreshTokenClaims defaultConfig 0 0 0 carol) :=
  ValidateToken_signedHS256 exampleLib exampleLib_roundTrips defaultConfig Second _
    (wholeSeconds_GenerateRefreshTokenClaims _ _ _ _ _) (by decide)

/-- C12, counterexample: `carol` is stored as `org_admin` of organization 3 and
presents her refresh token. The refresh succeeds with status 200, and the new
refresh token decodes to claims with an empty role and no organization id: it
does not carry the stored role or organization. -/
theorem C12_counterexample :
    carol.Role = RoleOrgAdmin ∧ carol.OrganizationID = some 3 ∧
    (AuthHandler.RefreshToken exampleLib defaultConfig oneSecond (DB.mk [carol])
        (some carolRefreshToken) (request [])).Written =
      [(200, { Success := true
               Data := some (.tokens
                 (signedHS256 exampleLib
                   (GenerateTokenClaims defaultConfig Second Second Second carol)
                   defaultConfig.JWTSecret)
                 (signedHS256 exampleLib
                   (GenerateRefreshTokenClaims defaultConfig Second Second Second carol)
                   defaultConfig.JWTSecret)
                 900)
               Error := none
               Message := "Token refreshed successfully" })] ∧
    (exampleLib.split (signedHS256 exampleLib
        (GenerateRefreshTokenClaims defaultConfig Second Second Second carol)
        defaultConfig.JWTSecret)).map (fun seg => (seg.claims.Role, seg.claims.OrganizationID)) =
      some ("", none) ∧
    ("" : UserRole) ≠ carol.Role ∧ (none : Option UUID) ≠ carol.OrganizationID := by
  refine ⟨rfl, rfl, ?_, ?_, by decide, by decide⟩
  · rw [RefreshToken_found exampleLib defaultConfig oneSecond (DB.mk [carol])
      carolRefreshToken (request []) _ carol (signedHS256_exampleLib_ne_nil _ _)
      ValidateToken_carolRefreshToken (by decide)]
    rfl
  · rw [split_signedHS256 exampleLib exampleLib_roundTrips _
      (wholeSeconds_GenerateRefreshTokenClaims _ _ _ _ _)]
    rfl

/-- C12, amended: for every successful refresh (the presented token validates and
the store has a row for its subject) the handler answers 200 with two tokens
built from the stored row. The new access token decodes to claims with the
user id, e-mail, role and organization id of the stored row, whatever the
presented claims say. The new refresh token decodes to claims with the user id
and e-mail of the stored row, an empty role and no organization id. -/
theorem C12_refresh_builds_from_stored_user (lib : JWTLib) (hlib : lib.RoundTrips)
    (cfg : Config) (clock : Nat → Time) (db : DB) (tok : GoString) (c : Context)
    (claims : JWTClaims) (user : User)
    (htok : tok ≠ []) (hv : ValidateToken lib cfg (clock 0) tok = .ok claims)
    (hu : db.First claims.UserID = some user) :
    (AuthHandler.RefreshToken lib cfg clock db (some tok) c).Written =
      c.Written ++
        [(200, { Success := true
                 Data := some (.tokens
                   (signedHS256 lib (GenerateTokenClaims cfg (clock 1) (clock 2) (clock 3) user)
                     cfg.JWTSecret)
                   (signedHS256 lib
                     (GenerateRefreshTokenClaims cfg (clock 4) (clock 5) (clock 6) user)
                     cfg.JWTSecret)
                   900)
                 Error := none
                 Message := "Token refreshed successfully" })] ∧
    (∃ seg,
      lib.split (signedHS256 lib (GenerateTokenClaims cfg (clock 1) (clock 2) (clock 3) user)
        cfg.JWTSecret) = some seg ∧
      seg.claims.UserID = user.ID ∧ seg.claims.Email = user.Email ∧
      seg.claims.Role = user.Role ∧ seg.claims.OrganizationID = user.OrganizationID) ∧
    (∃ seg,
      lib.split (signedHS256 lib
        (GenerateRefreshTokenClaims cfg (clock 4) (clock 5) (clock 6) user)
        cfg.JWTSecret) = some seg ∧
      seg.claims.UserID = user.ID ∧ seg.claims.Email = user.Email ∧
      seg.claims.Role = "" ∧ seg.claims.OrganizationID = none) := by
  refine ⟨?_, ⟨_, split_signedHS256 lib hlib _ (wholeSeconds_GenerateTokenClaims _ _ _ _ _) _,
      rfl, rfl, rfl, rfl⟩,
    ⟨_, split_signedHS256 lib hlib _ (wholeSeconds_GenerateRefreshTokenClaims _ _ _ _ _) _,
      rfl, rfl, rfl, rfl⟩⟩
  rw [RefreshToken_found lib cfg clock db tok c claims user htok hv hu]
  rfl

/-- C12, amended, at the request of the counterexample. -/
theorem C12_refresh_builds_from_stored_user_witness :
    (carolRefreshToken ≠ [] ∧
      ValidateToken exampleLib defaultConfig (oneSecond 0) carolRefreshToken =
        .ok (GenerateRefreshTokenClaims defaultConfig 0 0 0 carol) ∧
      (DB.mk [carol]).First (GenerateRefreshTokenClaims defaultConfig 0 0 0 carol).UserID =
        some carol) ∧
    ((AuthHandler.RefreshToken exampleLib defaultConfig oneSecond (DB.mk [carol])
        (some carolRefreshToken) (request [])).Written =
      (request []).Written ++
        [(200, { Success := true
                 Data := some (.tokens
                   (signedHS256 exampleLib
                     (GenerateTokenClaims defaultConfig (oneSecond 1) (oneSecond 2)
                       (oneSecond 3) carol)
                     defaultConfig.JWTSecret)
                   (signedHS256 exampleLib
                     (GenerateRefreshTokenClaims defaultConfig (oneSecond 4) (oneSecond 5)
                       (oneSecond 6) carol)
                     defaultConfig.JWTSecret)
                   900)
                 Error := none
                 Message := "Token refreshed successfully" })] ∧
    (∃ seg,
      exampleLib.split (signedHS256 exampleLib
        (GenerateTokenClaims defaultConfig (oneSecond 1) (oneSecond 2) (oneSecond 3) carol)
        defaultConfig.JWTSecret) = some seg ∧
      seg.claims.UserID = carol.ID ∧ seg.claims.Email = carol.Email ∧
      seg.claims.Role = carol.Role ∧ seg.claims.OrganizationID = carol.OrganizationID) ∧
    (∃ seg,
      exampleLib.split (signedHS256 exampleLib
        (GenerateRefreshTokenClaims defaultConfig (oneSecond 4) (oneSecond 5) (oneSecond 6)
          carol)
        defaultConfig.JWTSecret) = some seg ∧
      seg.claims.UserID = carol.ID ∧ seg.claims.Email = carol.Email ∧
      seg.claims.Role = "" ∧ seg.claims.OrganizationID = none)) :=
  ⟨⟨signedHS256_exampleLib_ne_nil _ _, ValidateToken_carolRefreshToken, by decide⟩,
   C12_refresh_builds_from_stored_user exampleLib exampleLib_roundTrips defaultConfig oneSecond
     (DB.mk [carol]) carolRefreshToken (request []) _ carol
     (signedHS256_exampleLib_ne_nil _ _) ValidateToken_carolRefreshToken (by decide)⟩

/-! ## C13: login with a right and with a wrong password -/

theorem signedHS256_ne_nil (lib : JWTLib) (hlib : lib.RoundTrips) (hnil : lib.split [] = none)
    (claims : JWTClaims) (hw : WholeSeconds claims) (key : GoString) :
    signedHS256 lib claims key ≠ [] := by
  intro h
  have hs := split_signedHS256 lib hlib claims hw key
  rw [h, hnil] at hs
  exact Option.noConfusion hs

theorem IsActive_eq_true {user : User} (hs : user.Status = UserStatusActive) :
    user.IsActive = true := by
  simp [User.IsActive, hs]

/-- The result of `AuthService.Login` for an active user found by e-mail. -/
theorem Login_active (lib : JWTLib) (cfg : Config) (clock : Nat → Time) (db : DB)
    (check : String → String → Bool) (req : LoginRequest) (user : User)
    (hu : UserRepository.GetByEmail db req.Email = some user)
    (hact : user.Status = UserStatusActive) :
    AuthService.Login lib cfg clock db check req =
      if check req.Password user.Password then
        .ok { User := user
              AccessToken := signedHS256 lib
                (GenerateTokenClaims cfg (clock 0) (clock 1) (clock 2) user) cfg.JWTSecret
              RefreshToken := signedHS256 lib
                (GenerateRefreshTokenClaims cfg (clock 3) (clock 4) (clock 5) user) cfg.JWTSecret
              ExpiresIn := 900 }
      else .error "invalid email or password" := by
  cases hc : check req.Password user.Password <;>
    simp [AuthService.Login, hu, IsActive_eq_true hact, hc, GenerateToken_eq,
      GenerateRefreshToken_eq]

/-- C13, counterexample: `alice` is stored and active, and the request carries her
e-mail address and the password `abc`, which does not verify against her hash.
The binding rule `min=6` on the password rejects the request before any
credential is looked at, and the answer is 400 BAD_REQUEST, not 401. -/
theorem C13_counterexample :
    UserRepository.GetByEmail (DB.mk [aliceRow]) "alice@example.com" = some aliceRow ∧
    aliceRow.Status = UserStatusActive ∧
    exampleCheck "abc" aliceRow.Password = false ∧
    (AuthHandler.Login exampleLib defaultConfig oneSecond (DB.mk [aliceRow]) exampleCheck
        exampleIsEmail (some { Email := "alice@example.com", Password := "abc" })
        (request [])).Written =
      [(400, { Success := false, Data := none,
               Error := some { Code := "BAD_REQUEST", Message := "Invalid request data",
                               Details := some (.text "Password failed on the min tag") },
               Message := "" })] := by
  decide

/-- When the binding of a `LoginRequest` succeeds: the body decodes, the e-mail
address is present and well formed, the password is present and has at least six
characters. -/
theorem ShouldBindLogin_ok_iff (isEmail : String → Bool) (body : Option LoginRequest)
    (req : LoginRequest) :
    ShouldBindLogin isEmail body = .ok req ↔
      body = some req ∧ req.Email ≠ "" ∧ isEmail req.Email = true ∧ req.Password ≠ "" ∧
        6 ≤ req.Password.length := by
  unfold ShouldBindLogin
  cases body with
  | none => simp
  | some r =>
    by_cases h1 : r.Email = ""
    · simp only [h1, if_true]
      constructor
      · intro h
        exact Except.noConfusion h
      · rintro ⟨hr, he, _⟩
        rw [← Option.some.inj hr] at he
        exact absurd h1 he
    · by_cases h2 : isEmail r.Email = true
      · by_cases h3 : r.Password = ""
        · simp only [h1, h2, h3, if_true, if_false, Bool.not_true, Bool.false_eq_true]
          constructor
          · intro h
            exact Except.noConfusion h
          · rintro ⟨hr, _, _, hp, _⟩
            rw [← Option.some.inj hr] at hp
            exact absurd h3 hp
        · by_cases h4 : r.Password.length < 6
          · simp only [h1, h2, h3, h4, if_true, if_false, Bool.not_true, Bool.false_eq_true]
            constructor
            · intro h
              exact Except.noConfusion h
            · rintro ⟨hr, _, _, _, hl⟩
              rw [← Option.some.inj hr] at hl
              omega
          · simp only [h1, h2, h3, h4, if_false, Bool.not_true, Bool.false_eq_true,
              Except.ok.injEq, Option.some.injEq]
            constructor
            · intro hr
              subst hr
              exact ⟨rfl, h1, h2, h3, by omega⟩
            · intro hr
              exact hr.1
      · have h2f : isEmail r.Email = false := by
          cases hb : isEmail r.Email with
          | false => rfl
          | true => exact absurd hb h2
        simp only [h1, h2f, if_true, if_false, Bool.not_false]
        constructor
        · intro h
          exact Except.noConfusion h
        · rintro ⟨hr, _, he, _⟩
          rw [← Option.some.inj hr] at he
          exact absurd he h2

/-- The answer of `AuthHandler.Login` to a request whose binding fails. -/
theorem Login_bind_error (lib : JWTLib) (cfg : Config) (clock : Nat → Time) (db : DB)
    (check : String → String → Bool) (isEmail : String → Bool) (body : Option LoginRequest)
    (c : Context) (err : String) (hbind : ShouldBindLogin isEmail body = .error err) :
    AuthHandler.Login lib cfg clock db check isEmail body c =
      BadRequest c "Invalid request data" (some (.text err)) := by
  simp only [AuthHandler.Login, hbind]

/-- C13, amended: a login request passes the binding rules of `LoginRequest`
exactly when its body decodes, the e-mail address is present and well formed and
the password is present and at least six characters long. A request that fails
them is answered 400 BAD_REQUEST `Invalid request data`, and the answer is the
same for every store, password check, library, configuration and clock, so no
credential was looked at. For every stored active user and every request that
passes them and carries that user's e-mail address: if the password verifies
against the stored hash, `AuthHandler.Login` answers 200 with a success envelope
holding the user, a non-empty access token, a non-empty refresh token and
`expires_in` 900; if it does not verify, the answer is 401 UNAUTHORIZED with
message `invalid email or password` and no data. -/
theorem C13_login_outcomes (lib : JWTLib) (hlib : lib.RoundTrips) (hnil : lib.split [] = none)
    (cfg : Config) (clock : Nat → Time) (db : DB) (check : String → String → Bool)
    (isEmail : String → Bool) (body : Option LoginRequest) (c : Context) :
    (∀ req, ShouldBindLogin isEmail body = .ok req ↔
      body = some req ∧ req.Email ≠ "" ∧ isEmail req.Email = true ∧ req.Password ≠ "" ∧
        6 ≤ req.Password.length) ∧
    ((¬ ∃ req, ShouldBindLogin isEmail body = .ok req) →
      ∃ err,
        ShouldBindLogin isEmail body = .error err ∧
        (AuthHandler.Login lib cfg clock db check isEmail body c).Written =
          c.Written ++
            [(400, { Success := false, Data := none,
                     Error := some { Code := "BAD_REQUEST", Message := "Invalid request data",
                                     Details := some (.text err) },
                     Message := "" })] ∧
        ∀ (lib2 : JWTLib) (cfg2 : Config) (clock2 : Nat → Time) (db2 : DB)
          (check2 : String → String → Bool),
          AuthHandler.Login lib2 cfg2 clock2 db2 check2 isEmail body c =
            AuthHandler.Login lib cfg clock db check isEmail body c) ∧
    (∀ req user,
      ShouldBindLogin isEmail body = .ok req →
      UserRepository.GetByEmail db req.Email = some user →
      user.Status = UserStatusActive →
      (check req.Password user.Password = true →
        (AuthHandler.Login lib cfg clock db check isEmail body c).Written =
          c.Written ++
            [(200, { Success := true
                     Data := some (.login user
                       (signedHS256 lib
                         (GenerateTokenClaims cfg (clock 0) (clock 1) (clock 2) user)
                         cfg.JWTSecret)
                       (signedHS256 lib
                         (GenerateRefreshTokenClaims cfg (clock 3) (clock 4) (clock 5) user)
                         cfg.JWTSecret)
                       900)
                     Error := none
                     Message := "Login successful" })] ∧
        signedHS256 lib (GenerateTokenClaims cfg (clock 0) (clock 1) (clock 2) user)
          cfg.JWTSecret ≠ [] ∧
        signedHS256 lib (GenerateRefreshTokenClaims cfg (clock 3) (clock 4) (clock 5) user)
          cfg.JWTSecret ≠ []) ∧
      (check req.Password user.Password = false →
        (AuthHandler.Login lib cfg clock db check isEmail body c).Written =
          c.Written ++
            [(401, { Success := false, Data := none,
                     Error := some { Code := "UNAUTHORIZED",
                                     Message := "invalid email or password",
                                     Details := none },
                     Message := "" })])) := by
  refine ⟨ShouldBindLogin_ok_iff isEmail body, ?_, ?_⟩
  · intro hno
    cases hb : ShouldBindLogin isEmail body with
    | ok req => exact absurd ⟨req, hb⟩ hno
    | error err =>
      refine ⟨err, rfl, ?_, ?_⟩
      · rw [Login_bind_error lib cfg clock db check isEmail body c err hb]
        rfl
      · intro lib2 cfg2 clock2 db2 check2
        rw [Login_bind_error lib cfg clock db check isEmail body c err hb,
          Login_bind_error lib2 cfg2 clock2 db2 check2 isEmail body c err hb]
  · intro req user hbind hu hact
    constructor
    · intro hc
      refine ⟨?_,
        signedHS256_ne_nil lib hlib hnil _ (wholeSeconds_GenerateTokenClaims _ _ _ _ _) _,
        signedHS256_ne_nil lib hlib hnil _ (wholeSeconds_GenerateRefreshTokenClaims _ _ _ _ _) _⟩
      simp only [AuthHandler.Login, hbind, Login_active lib cfg clock db check req user hu hact,
        hc, if_true]
      rfl
    · intro hc
      simp only [AuthHandler.Login, hbind, Login_active lib cfg clock db check req user hu hact,
        hc]
      rfl

/-- C13, amended, for `alice`: the password `admin123` of her stored hash is
answered 200 with both tokens, and the password `abc`, which fails the binding
rules, is answered 400. -/
theorem C13_login_outcomes_witness :
    (exampleLib.RoundTrips ∧ exampleLib.split [] = none ∧
      ShouldBindLogin exampleIsEmail
        (some { Email := "alice@example.com", Password := "admin123" }) =
        .ok { Email := "alice@example.com", Password := "admin123" } ∧
      UserRepository.GetByEmail (DB.mk [aliceRow]) "alice@example.com" = some aliceRow ∧
      aliceRow.Status = UserStatusActive ∧
      exampleCheck "admin123" aliceRow.Password = true ∧
      ¬ ∃ req, ShouldBindLogin exampleIsEmail
        (some { Email := "alice@example.com", Password := "abc" }) = .ok req) ∧
    (AuthHandler.Login exampleLib defaultConfig oneSecond (DB.mk [aliceRow]) exampleCheck
        exampleIsEmail (some { Email := "alice@example.com", Password := "admin123" })
        (request [])).Written =
      (request []).Written ++
        [(200, { Success := true
                 Data := some (.login aliceRow
                   (signedHS256 exampleLib
                     (GenerateTokenClaims defaultConfig (oneSecond 0) (oneSecond 1)
                       (oneSecond 2) aliceRow)
                     defaultConfig.JWTSecret)
                   (signedHS256 exampleLib
                     (GenerateRefreshTokenClaims defaultConfig (oneSecond 3) (oneSecond 4)
                       (oneSecond 5) aliceRow)
                     defaultConfig.JWTSecret)
                   900)
                 Error := none
                 Message := "Login successful" })] ∧
    (∃ err,
      ShouldBindLogin exampleIsEmail
        (some { Email := "alice@example.com", Password := "abc" }) = .error err ∧
      (AuthHandler.Login exampleLib defaultConfig oneSecond (DB.mk [aliceRow]) exampleCheck
          exampleIsEmail (some { Email := "alice@example.com", Password := "abc" })
          (request [])).Written =
        (request []).Written ++
          [(400, { Success := false, Data := none,
                   Error := some { Code := "BAD_REQUEST", Message := "Invalid request data",
                                   Details := some (.text err) },
                   Message := "" })]) := by
  have hshort : ¬ ∃ req, ShouldBindLogin exampleIsEmail
      (some { Email := "alice@example.com", Password := "abc" }) = .ok req := by
    rintro ⟨req, h⟩
    have h2 : ShouldBindLogin exampleIsEmail
        (some { Email := "alice@example.com", Password := "abc" }) =
        .error "Password failed on the min tag" := rfl
    rw [h2] at h
    exact Except.noConfusion h
  refine ⟨⟨exampleLib_roundTrips, rfl, rfl, by decide, rfl, by decide, hshort⟩, ?_, ?_⟩
  · exact (((C13_login_outcomes exampleLib exampleLib_roundTrips rfl defaultConfig oneSecond
      (DB.mk [aliceRow]) exampleCheck exampleIsEmail
      (some { Email := "alice@example.com", Password := "admin123" }) (request [])).2.2
      { Email := "alice@example.com", Password := "admin123" } aliceRow
      rfl (by decide) rfl).1 (by decide)).1
  · obtain ⟨err, he, hw, _⟩ :=
      (C13_login_outcomes exampleLib exampleLib_roundTrips rfl defaultConfig oneSecond
        (DB.mk [aliceRow]) exampleCheck exampleIsEmail
        (some { Email := "alice@example.com", Password := "abc" }) (request [])).2.1 hshort
    exact ⟨err, he, hw⟩

/-! ## C14: which signing algorithms `ValidateToken` accepts -/

theorem GetSigningMethod_HMAC_iff (alg name : String) (hash : Hash) :
    GetSigningMethod alg = some (.HMAC name hash) ↔
      (alg = "HS256" ∧ name = "HS256" ∧ hash = .SHA256) ∨
      (alg = "HS384" ∧ name = "HS384" ∧ hash = .SHA384) ∨
      (alg = "HS512" ∧ name = "HS512" ∧ hash = .SHA512) := by
  unfold GetSigningMethod SigningMethodHS256 SigningMethodHS384 SigningMethodHS512
  by_cases h1 : alg = "HS256"
  · subst h1
    simp
    constructor
    · rintro ⟨rfl, rfl⟩; exact ⟨rfl, rfl⟩
    · rintro ⟨rfl, rfl⟩; exact ⟨rfl, rfl⟩
  · by_cases h2 : alg = "HS384"
    · subst h2
      simp
      constructor
      · rintro ⟨rfl, rfl⟩; exact ⟨rfl, rfl⟩
      · rintro ⟨rfl, rfl⟩; exact ⟨rfl, rfl⟩
    · by_cases h3 : alg = "HS512"
      · subst h3
        simp
        constructor
        · rintro ⟨rfl, rfl⟩; exact ⟨rfl, rfl⟩
        · rintro ⟨rfl, rfl⟩; exact ⟨rfl, rfl⟩
      · simp only [h1, h2, h3, if_false, false_and, or_false, iff_false]
        split <;> simp

/-- When `ValidateToken` accepts: the token string splits, its header names a
registered HMAC method, its signature is the keyed hash of that method under the
configured secret, and the validator accepts the dates. -/
theorem ValidateToken_ok_iff (lib : JWTLib) (cfg : Config) (now : Time) (tok : GoString)
    (claims : JWTClaims) :
    ValidateToken lib cfg now tok = .ok claims ↔
      ∃ seg alg name hash,
        lib.split tok = some seg ∧ seg.alg = some alg ∧
        GetSigningMethod alg = some (.HMAC name hash) ∧
        seg.signature = some (lib.hmac hash cfg.JWTSecret seg.signingString) ∧
        Validate seg.claims now = none ∧ seg.claims = claims := by
  unfold ValidateToken ParseWithClaims
  cases hs : lib.split tok with
  | none => simp
  | some seg =>
    cases ha : seg.alg with
    | none => simp [ha]
    | some alg =>
      cases hm : GetSigningMethod alg with
      | none => simp [ha, hm]
      | some method =>
        cases hsig : seg.signature with
        | none => simp [ha, hm, hsig]
        | some sig =>
          cases method with
          | other name => simp [ha, hm, hsig, keyFunc]
          | HMAC name hash =>
            by_cases hv : sig = lib.hmac hash cfg.JWTSecret seg.signingString
            · cases hd : Validate seg.claims now with
              | none =>
                simp only [ha, hm, hsig, keyFunc, SigningMethod.Verify, hv, hd, beq_self_eq_true,
                  if_true, Except.ok.injEq, Option.some.injEq, true_and, exists_and_left,
                  SigningMethod.HMAC.injEq, exists_eq_left']
                constructor
                · intro h
                  exact ⟨name, hash, ⟨rfl, rfl⟩, rfl, h⟩
                · rintro ⟨_, _, _, _, h⟩
                  exact h
              | some e => simp [ha, hm, hsig, keyFunc, SigningMethod.Verify, hv, hd]
            · simp [ha, hm, hsig, keyFunc, SigningMethod.Verify, hv]

theorem split_hs512Token :
    exampleLib.split hs512Token =
      some { signingString :=
               exampleLib.signingString "HS512" (GenerateTokenClaims defaultConfig 0 0 0 alice)
             alg := some "HS512"
             claims := GenerateTokenClaims defaultConfig 0 0 0 alice
             signature := some (exampleLib.hmac .SHA512 defaultConfig.JWTSecret
               (exampleLib.signingString "HS512"
                 (GenerateTokenClaims defaultConfig 0 0 0 alice))) } := by
  unfold hs512Token
  exact exampleLib_roundTrips "HS512" _ _ (wholeSeconds_GenerateTokenClaims _ _ _ _ _)

/-- C14, counterexample: a token whose header names HS512, signed with the
SHA-512 keyed hash under the configured secret, is accepted by `ValidateToken`,
although `GenerateToken` signs with HS256. -/
theorem C14_counterexample :
    (exampleLib.split hs512Token).map (fun seg => seg.alg) = some (some "HS512") ∧
    SigningMethodHS256.Alg = "HS256" ∧
    "HS512" ≠ SigningMethodHS256.Alg ∧
    ValidateToken exampleLib defaultConfig Second hs512Token =
      .ok (GenerateTokenClaims defaultConfig 0 0 0 alice) := by
  refine ⟨by rw [split_hs512Token]; rfl, rfl, by decide, ?_⟩
  rw [ValidateToken_ok_iff]
  exact ⟨_, "HS512", "HS512", .SHA512, split_hs512Token, rfl, by decide, rfl,
    Validate_alice_claims, rfl⟩

/-- C14, amended: `ValidateToken` accepts a token string exactly when it splits
into segments whose header names HS256, HS384 or HS512, whose signature is the
keyed hash of that method (SHA-256, SHA-384 or SHA-512) of the signing string
under the configured secret, and whose dates the validator accepts; the claims
returned are those of the token. A token whose header names no algorithm or any
other algorithm is not accepted. -/
theorem C14_accepts_hmac_family (lib : JWTLib) (cfg : Config) (now : Time) (tok : GoString) :
    (∀ claims, ValidateToken lib cfg now tok = .ok claims ↔
      ∃ seg hash,
        lib.split tok = some seg ∧
        ((seg.alg = some "HS256" ∧ hash = .SHA256) ∨ (seg.alg = some "HS384" ∧ hash = .SHA384) ∨
          (seg.alg = some "HS512" ∧ hash = .SHA512)) ∧
        seg.signature = some (lib.hmac hash cfg.JWTSecret seg.signingString) ∧
        Validate seg.claims now = none ∧ seg.claims = claims) ∧
    (∀ seg, lib.split tok = some seg →
      seg.alg ≠ some "HS256" → seg.alg ≠ some "HS384" → seg.alg ≠ some "HS512" →
      ∃ e, ValidateToken lib cfg now tok = .error e) := by
  have hiff : ∀ claims, ValidateToken lib cfg now tok = .ok claims ↔
      ∃ seg hash,
        lib.split tok = some seg ∧
        ((seg.alg = some "HS256" ∧ hash = .SHA256) ∨ (seg.alg = some "HS384" ∧ hash = .SHA384) ∨
          (seg.alg = some "HS512" ∧ hash = .SHA512)) ∧
        seg.signature = some (lib.hmac hash cfg.JWTSecret seg.signingString) ∧
        Validate seg.claims now = none ∧ seg.claims = claims := by
    intro claims
    rw [ValidateToken_ok_iff]
    constructor
    · rintro ⟨seg, alg, name, hash, hs, ha, hm, hsig, hd, hc⟩
      refine ⟨seg, hash, hs, ?_, hsig, hd, hc⟩
      rcases (GetSigningMethod_HMAC_iff alg name hash).mp hm with
        ⟨h1, _, h2⟩ | ⟨h1, _, h2⟩ | ⟨h1, _, h2⟩
      · exact Or.inl ⟨by rw [ha, h1], h2⟩
      · exact Or.inr (Or.inl ⟨by rw [ha, h1], h2⟩)
      · exact Or.inr (Or.inr ⟨by rw [ha, h1], h2⟩)
    · rintro ⟨seg, hash, hs, halg, hsig, hd, hc⟩
      rcases halg with ⟨ha, rfl⟩ | ⟨ha, rfl⟩ | ⟨ha, rfl⟩
      · exact ⟨seg, "HS256", "HS256", _, hs, ha, by decide, hsig, hd, hc⟩
      · exact ⟨seg, "HS384", "HS384", _, hs, ha, by decide, hsig, hd, hc⟩
      · exact ⟨seg, "HS512", "HS512", _, hs, ha, by decide, hsig, hd, hc⟩
  refine ⟨hiff, ?_⟩
  intro seg hs h1 h2 h3
  cases hr : ValidateToken lib cfg now tok with
  | error e => exact ⟨e, rfl⟩
  | ok claims =>
    obtain ⟨seg2, hash, hs2, halg, _⟩ := (hiff claims).mp hr
    rw [hs] at hs2
    cases hs2
    rcases halg with ⟨ha, _⟩ | ⟨ha, _⟩ | ⟨ha, _⟩
    · exact absurd ha h1
    · exact absurd ha h2
    · exact absurd ha h3

/-! ## C15: expired tokens -/

theorem split_aliceToken : exampleLib.split aliceToken = some aliceSegments := by
  unfold aliceToken aliceSegments
  exact split_signedHS256 exampleLib exampleLib_roundTrips _
    (wholeSeconds_GenerateTokenClaims _ _ _ _ _) _

theorem split_forgedToken :
    exampleLib.split forgedToken =
      some { signingString :=
               exampleLib.signingString "HS256" (GenerateTokenClaims defaultConfig 0 0 0 alice)
             alg := some "HS256"
             claims := GenerateTokenClaims defaultConfig 0 0 0 alice
             signature := some (exampleLib.hmac .SHA256 (strCodes "guess")
               (exampleLib.signingString "HS256"
                 (GenerateTokenClaims defaultConfig 0 0 0 alice))) } := by
  unfold forgedToken
  exact split_signedHS256 exampleLib exampleLib_roundTrips _
    (wholeSeconds_GenerateTokenClaims _ _ _ _ _) _

theorem ValidateToken_forgedToken_late :
    ValidateToken exampleLib defaultConfig (1000 * Second) forgedToken =
      .error .SignatureInvalid := by
  show ValidateToken exampleLib defaultConfig (1000 * Second) (signedHS256 exampleLib _ _) = _
  unfold signedHS256
  rw [ValidateToken_join exampleLib exampleLib_roundTrips defaultConfig _ _
    (wholeSeconds_GenerateTokenClaims _ _ _ _ _), if_neg]
  show ¬ (Hash.size .SHA256 :: (strCodes "guess" ++ _) =
    Hash.size .SHA256 :: (defaultConfig.JWTSecret ++ _))
  intro h
  have h2 := List.append_cancel_right (List.cons.inj h).2
  revert h2
  decide

/-- C15, counterexample: the token of `alice` with a signature made under another
secret has expires-at 900 s. Validated at 1000 s, when it is expired,
`ValidateToken` fails with the signature-invalid kind, not with the expired
kind: the signature is checked before the dates. -/
theorem C15_counterexample :
    (exampleLib.split forgedToken).map (fun seg => seg.claims.RegisteredClaims.ExpiresAt) =
      some (some (900 * Second)) ∧
    (900 * Second : Time) < 1000 * Second ∧
    ValidateToken exampleLib defaultConfig (1000 * Second) forgedToken =
      .error .SignatureInvalid ∧
    TokenError.SignatureInvalid ≠ .InvalidClaims true false ∧
    TokenError.SignatureInvalid ≠ .InvalidClaims true true := by
  refine ⟨?_, by decide, ValidateToken_forgedToken_late, by decide, by decide⟩
  rw [split_forgedToken]
  decide

/-- C15, amended: for every token string that splits into segments with a
registered HMAC algorithm and a decodable signature, and whose expires-at is
not after the validation time: when the signature is the keyed hash of the
signing string under the configured secret, `ValidateToken` fails with the
invalid-claims error that records the token as expired; when the signature is
anything else, it fails with the signature-invalid error and the dates are not
looked at. -/
theorem C15_expired_after_signature (lib : JWTLib) (cfg : Config) (now : Time)
    (tok : GoString) (seg : Segments) (alg name : String) (hash : Hash) (sig : GoString)
    (exp : Time)
    (hs : lib.split tok = some seg) (ha : seg.alg = some alg)
    (hm : GetSigningMethod alg = some (.HMAC name hash))
    (hsig : seg.signature = some sig)
    (hexp : seg.claims.RegisteredClaims.ExpiresAt = some exp) (hpast : exp ≤ now) :
    ValidateToken lib cfg now tok =
      if sig = lib.hmac hash cfg.JWTSecret seg.signingString then
        .error (.InvalidClaims true (!verifyNotBefore seg.claims.RegisteredClaims now))
      else .error .SignatureInvalid := by
  have hnot : ¬ now < exp := not_lt.mpr hpast
  by_cases hv : sig = lib.hmac hash cfg.JWTSecret seg.signingString
  · simp [ValidateToken, ParseWithClaims, hs, ha, hm, hsig, keyFunc, SigningMethod.Verify, hv,
      Validate, verifyExpiresAt, hexp, hnot]
  · simp [ValidateToken, ParseWithClaims, hs, ha, hm, hsig, keyFunc, SigningMethod.Verify, hv]

/-- C15, amended, for the token of `alice` validated at 1000 s. -/
theorem C15_expired_after_signature_witness :
    (exampleLib.split aliceToken = some aliceSegments ∧
      aliceSegments.alg = some "HS256" ∧
      GetSigningMethod "HS256" = some (.HMAC "HS256" .SHA256) ∧
      aliceSegments.signature =
        some (exampleLib.hmac .SHA256 defaultConfig.JWTSecret aliceSegments.signingString) ∧
      aliceSegments.claims.RegisteredClaims.ExpiresAt = some (900 * Second) ∧
      (900 * Second : Time) ≤ 1000 * Second) ∧
    ValidateToken exampleLib defaultConfig (1000 * Second) aliceToken =
      if exampleLib.hmac .SHA256 defaultConfig.JWTSecret aliceSegments.signingString =
          exampleLib.hmac .SHA256 defaultConfig.JWTSecret aliceSegments.signingString then
        .error (.InvalidClaims true
          (!verifyNotBefore aliceSegments.claims.RegisteredClaims (1000 * Second)))
      else .error .SignatureInvalid :=
  ⟨⟨split_aliceToken, rfl, by decide, rfl, by decide, by decide⟩,
   C15_expired_after_signature exampleLib defaultConfig (1000 * Second) aliceToken
     aliceSegments "HS256" "HS256" .SHA256
     (exampleLib.hmac .SHA256 defaultConfig.JWTSecret aliceSegments.signingString)
     (900 * Second) split_aliceToken rfl (by decide) rfl (by decide) (by decide)⟩

/-! ## C16: access tokens and refresh tokens are interchangeable -/

/-- C17, counterexample: a login for the deactivated account of `alice` fails with
the message `account is inactive` (with the right and with a wrong password),
while a login for an address that is not stored fails with the message
`invalid email or password`; the handler puts each message in its 401 response. -/
theorem C17_counterexample :
    AuthService.Login exampleLib defaultConfig oneSecond (DB.mk [aliceRowInactive]) exampleCheck
        { Email := "alice@example.com", Password := "admin123" } =
      .error "account is inactive" ∧
    AuthService.Login exampleLib defaultConfig oneSecond (DB.mk [aliceRowInactive]) exampleCheck
        { Email := "alice@example.com", Password := "wrong-password" } =
      .error "account is inactive" ∧
    AuthService.Login exampleLib defaultConfig oneSecond (DB.mk [aliceRowInactive]) exampleCheck
        { Email := "nobody@example.com", Password := "admin123" } =
      .error "invalid email or password" ∧
    "account is inactive" ≠ "invalid email or password" ∧
    (AuthHandler.Login exampleLib defaultConfig oneSecond (DB.mk [aliceRowInactive]) exampleCheck
        exampleIsEmail (some { Email := "alice@example.com", Password := "admin123" })
        (request [])).Written =
      [(401, { Success := false, Data := none,
               Error := some { Code := "UNAUTHORIZED", Message := "account is inactive",
                               Details := none },
               Message := "" })] ∧
    (AuthHandler.Login exampleLib defaultConfig oneSecond (DB.mk [aliceRowInactive]) exampleCheck
        exampleIsEmail (some { Email := "nobody@example.com", Password := "admin123" })
        (request [])).Written =
      [(401, { Success := false, Data := none,
               Error := some { Code := "UNAUTHORIZED", Message := "invalid email or password",
                               Details := none },
               Message := "" })] := by
  refine ⟨rfl, rfl, rfl, by decide, by decide, by decide⟩

/-- C17, amended: a login request that passes the binding rules and fails in
`AuthService.Login` is answered 401 UNAUTHORIZED with the message of the failed
check. The message is `invalid email or password` when no row has the address
and when the row is active and the password does not verify, so these two are
not told apart; it is `account is inactive` when the row is not active, which
is checked before the password. -/
theorem C17_login_failure_messages (lib : JWTLib) (cfg : Config) (clock : Nat → Time) (db : DB)
    (check : String → String → Bool) (isEmail : String → Bool) (body : Option LoginRequest)
    (req : LoginRequest) (msg : String) (c : Context)
    (hbind : ShouldBindLogin isEmail body = .ok req)
    (hfail : AuthService.Login lib cfg clock db check req = .error msg) :
    (AuthHandler.Login lib cfg clock db check isEmail body c).Written =
      c.Written ++
        [(401, { Success := false, Data := none,
                 Error := some { Code := "UNAUTHORIZED", Message := msg, Details := none },
                 Message := "" })] ∧
    ((UserRepository.GetByEmail db req.Email = none ∧ msg = "invalid email or password") ∨
     (∃ user, UserRepository.GetByEmail db req.Email = some user ∧
        user.Status ≠ UserStatusActive ∧ msg = "account is inactive") ∨
     (∃ user, UserRepository.GetByEmail db req.Email = some user ∧
        user.Status = UserStatusActive ∧ check req.Password user.Password = false ∧
        msg = "invalid email or password")) := by
  constructor
  · simp only [AuthHandler.Login, hbind, hfail]
    rfl
  · unfold AuthService.Login at hfail
    cases hu : UserRepository.GetByEmail db req.Email with
    | none =>
      left
      simp only [hu, Except.error.injEq] at hfail
      exact ⟨rfl, hfail.symm⟩
    | some user =>
      right
      simp only [hu] at hfail
      by_cases hact : user.Status = UserStatusActive
      · right
        simp only [IsActive_eq_true hact, Bool.not_true, Bool.false_eq_true, if_false] at hfail
        cases hc : check req.Password user.Password with
        | false =>
          simp only [hc, Bool.not_false, if_true, Except.error.injEq] at hfail
          exact ⟨user, rfl, hact, hc, hfail.symm⟩
        | true =>
          simp [hc, GenerateToken_eq, GenerateRefreshToken_eq] at hfail
      · left
        simp only [IsActive_eq_false hact, Bool.not_false, if_true, Except.error.injEq] at hfail
        exact ⟨user, rfl, hact, hfail.symm⟩

/-- C17, amended, for a login to the deactivated account of `alice`. -/
theorem C17_login_failure_messages_witness :
    (ShouldBindLogin exampleIsEmail
        (some { Email := "alice@example.com", Password := "admin123" }) =
        .ok { Email := "alice@example.com", Password := "admin123" } ∧
      AuthService.Login exampleLib defaultConfig oneSecond (DB.mk [aliceRowInactive])
        exampleCheck { Email := "alice@example.com", Password := "admin123" } =
        .error "account is inactive") ∧
    (AuthHandler.Login exampleLib defaultConfig oneSecond (DB.mk [aliceRowInactive])
        exampleCheck exampleIsEmail
        (some { Email := "alice@example.com", Password := "admin123" }) (request [])).Written =
      (request []).Written ++
        [(401, { Success := false, Data := none,
                 Error := some { Code := "UNAUTHORIZED", Message := "account is inactive",
                                 Details := none },
                 Message := "" })] :=
  ⟨⟨rfl, rfl⟩,
   (C17_login_failure_messages exampleLib defaultConfig oneSecond (DB.mk [aliceRowInactive])
      exampleCheck exampleIsEmail
      (some { Email := "alice@example.com", Password := "admin123" })
      { Email := "alice@example.com", Password := "admin123" } "account is inactive"
      (request []) rfl rfl).1⟩

/-! ## C18: `CanManageOrganization` and `CheckOrganizationAccess` -/

theorem CanManageOrganization_iff (u : User) (g : UUID) :
    u.CanManageOrganization g = true ↔
      u.Role = RoleSuperAdmin ∨ (u.Role = RoleOrgAdmin ∧ u.OrganizationID = some g) := by
  unfold User.CanManageOrganization User.IsAdmin User.IsOrgAdmin
  by_cases h1 : u.Role = RoleSuperAdmin
  · simp [h1]
  · by_cases h2 : u.Role = RoleOrgAdmin
    · cases ho : u.OrganizationID with
      | none => simp [h1, h2]
      | some a => simp [h1, h2]
    · simp [h1, h2]

theorem CheckOrganizationAccess_admin_pass_iff (getter : Context → UUID) (c : Context)
    (hadmin : (GetUserRoleFromContext c).1 = RoleSuperAdmin ∨
      (GetUserRoleFromContext c).1 = RoleOrgAdmin) :
    CheckOrganizationAccess getter c = c.Next ↔
      ((GetUserRoleFromContext c).1 = RoleSuperAdmin ∨
        (GetOrganizationIDFromContext c).1 = some (getter c)) := by
  have hne : RoleOrgAdmin ≠ RoleSuperAdmin := by decide
  rcases hadmin with hr | hr
  · simp [CheckOrganizationAccess, hr]
  · cases ho : (GetOrganizationIDFromContext c).1 with
    | none =>
      simp only [CheckOrganizationAccess, hr, hne, ho, Forbidden_Abort, beq_iff_eq, if_false,
        Option.isNone_none, Bool.true_or, if_true, false_or]
      constructor
      · intro h
        exact absurd h.symm (Next_ne_rejected c _ _ _)
      · intro h
        exact absurd h (by simp)
    | some A =>
      by_cases hA : A = getter c
      · simp [CheckOrganizationAccess, hr, hne, ho, hA]
      · simp only [CheckOrganizationAccess, hr, hne, ho, Forbidden_Abort, beq_iff_eq, if_false,
          if_true, false_or, Option.some.injEq, hA, iff_false]
        have hcond : (Option.isNone (some A) || some A != some (getter c)) = true := by
          simp [hA]
        rw [if_pos hcond]
        exact fun h => Next_ne_rejected c _ _ _ h.symm

/-- C18: `u.CanManageOrganization(g)` is true exactly when the role of `u` is
`super_admin`, or the role is `org_admin` and `u` has the organization id `g`.
So it is false for every `team_member` and `public` user and for every
`org_admin` without organization id. For a `super_admin` or `org_admin` whose
role and organization id are those in the context, it is true exactly when
`CheckOrganizationAccess` with target `g` passes the request on. -/
theorem C18_CanManageOrganization (u : User) (g : UUID) :
    (u.CanManageOrganization g = true ↔
      u.Role = RoleSuperAdmin ∨ (u.Role = RoleOrgAdmin ∧ u.OrganizationID = some g)) ∧
    (u.Role = RoleTeamMember ∨ u.Role = RolePublic → u.CanManageOrganization g = false) ∧
    (u.Role = RoleOrgAdmin → u.OrganizationID = none → u.CanManageOrganization g = false) ∧
    (u.Role = RoleSuperAdmin ∨ u.Role = RoleOrgAdmin →
      ∀ (getter : Context → UUID) (c : Context),
        (GetUserRoleFromContext c).1 = u.Role →
        (GetOrganizationIDFromContext c).1 = u.OrganizationID →
        getter c = g →
        (u.CanManageOrganization g = true ↔ CheckOrganizationAccess getter c = c.Next)) := by
  have hiff := CanManageOrganization_iff u g
  refine ⟨hiff, ?_, ?_, ?_⟩
  · intro hr
    cases hb : u.CanManageOrganization g with
    | false => rfl
    | true =>
      exfalso
      rcases hiff.mp hb with h | ⟨h, _⟩ <;> rcases hr with hr | hr <;>
        rw [hr] at h <;> revert h <;> decide
  · intro hr ho
    cases hb : u.CanManageOrganization g with
    | false => rfl
    | true =>
      exfalso
      rcases hiff.mp hb with h | ⟨_, h⟩
      · rw [hr] at h
        revert h
        decide
      · rw [ho] at h
        exact Option.noConfusion h
  · intro hadmin getter c hrole horg hg
    rw [hiff, CheckOrganizationAccess_admin_pass_iff getter c (by rw [hrole]; exact hadmin),
      hrole, horg, hg]
    have hne : RoleOrgAdmin ≠ RoleSuperAdmin := by decide
    rcases hadmin with h | h
    · simp [h]
    · simp [h, hne]

end EchoGolang
